import Mathlib

/-!
# Regional forecast: projection, city selection, assembly and label placement

A shallow embedding of `server/scripts/modules/regionalforecast.js` (class
`RegionalForecast extends WeatherDisplay`).

* JavaScript numbers are embedded as rationals: every constant of the source
  (`55.2`, `41.775`, ...) is a rational and the source only adds, subtracts,
  multiplies, divides by non-zero constants and compares.
* A call `this.m(...)` made from an instance method looks `m` up on the instance.
  Methods declared `static` live on the class constructor, not on the instance,
  so such a call raises `TypeError: this.m is not a function`.  Calls are
  therefore embedded in `Except JsError`.
* Helpers of other modules (`utils.calc.distance`, the fetches, the unit conversions,
  the icon resolver, the string form of a number) are parameters; a `try`/`catch` that
  returns `false` is embedded as a function to `Option`.
-/

namespace RegionalForecast

/-! ## Data model -/

/-- A pixel position `{ x, y }`. -/
structure XY where
  x : ℚ
  y : ℚ
  deriving DecidableEq, Repr

/-- The object `{ minLat, maxLat, minLon, maxLon }`. -/
structure MinMaxLatLon where
  minLat : ℚ
  maxLat : ℚ
  minLon : ℚ
  maxLon : ℚ
  deriving DecidableEq, Repr

/-- Run-time errors the embedded code can raise: the `TypeError` of calling a property
that is not a function, the `TypeError` of reading a property of `undefined`, `null` or
`false`'s missing member, and the failure of a collaborator of another module. -/
inductive JsError where
  | notAFunction (name : String)
  | cannotRead (property : String)
  | rejected (what : String)
  deriving DecidableEq, Repr

/-! ## Method lookup through `this` -/

/-- Methods the class body declares without `static`: `constructor` apart, these are
the members of `RegionalForecast.prototype`.  The superclass `WeatherDisplay` belongs
to another file; the members this file uses from it (`getData`, `drawCanvas`,
`setStatus`, `finishDraw`, `timing`, ...) are those of the display life cycle, and it is
taken to declare none of the helpers below. -/
def instanceMethods : List String :=
  ["getData", "getXYFromLatitudeLongitude", "getMinMaxLatitudeLongitude", "getXYForCity",
   "drawCanvas"]

/-- Methods the class body declares `static`: properties of the constructor only. -/
def staticMethods : List String :=
  ["buildForecast", "getRegionalObservation", "getXYFromLatitudeLongitudeAK",
   "getXYFromLatitudeLongitudeHI", "getMinMaxLatitudeLongitudeAK",
   "getMinMaxLatitudeLongitudeHI", "getXYForCityAK", "getXYForCityHI", "formatCity"]

/-- The call `this.name(...)` from an instance method: `body` is what the method of that
name computes when the instance has it; otherwise `this.name` is `undefined` and the
call raises a `TypeError`. -/
def callThis {α : Type} (name : String) (body : α) : Except JsError α :=
  if name ∈ instanceMethods then Except.ok body else Except.error (JsError.notAFunction name)

/-! ## Projection: latitude/longitude to source pixel -/

/-- Source lines 197-222, `static getXYFromLatitudeLongitudeAK`. -/
def getXYFromLatitudeLongitudeAK (Latitude Longitude OffsetX OffsetY : ℚ) : XY :=
  let ImgHeight : ℚ := 1142
  let ImgWidth : ℚ := 1200
  let y := (73.0 - Latitude) * 56
  let y := y - OffsetY
  let y := if y > ImgHeight - OffsetY * 2 then ImgHeight - OffsetY * 2
           else if y < 0 then 0 else y
  let x := ((-175.0 - Longitude) * 25.0) * -1
  let x := x - OffsetX
  let x := if x > ImgWidth - OffsetX * 2 then ImgWidth - OffsetX * 2
           else if x < 0 then 0 else x
  { x := x, y := y }

/-- Source lines 224-249, `static getXYFromLatitudeLongitudeHI`. -/
def getXYFromLatitudeLongitudeHI (Latitude Longitude OffsetX OffsetY : ℚ) : XY :=
  let ImgHeight : ℚ := 571
  let ImgWidth : ℚ := 600
  let y := (25 - Latitude) * 55.2
  let y := y - OffsetY
  let y := if y > ImgHeight - OffsetY * 2 then ImgHeight - OffsetY * 2
           else if y < 0 then 0 else y
  let x := ((-164.5 - Longitude) * 41.775) * -1
  let x := x - OffsetX
  let x := if x > ImgWidth - OffsetX * 2 then ImgWidth - OffsetX * 2
           else if x < 0 then 0 else x
  { x := x, y := y }

/-- Source lines 171-194: the statements of `getXYFromLatitudeLongitude` that follow its
two dispatch lines, the projection of the continental map. -/
def getXYFromLatitudeLongitudeBody (Latitude Longitude OffsetX OffsetY : ℚ) : XY :=
  let ImgHeight : ℚ := 1600
  let ImgWidth : ℚ := 2550
  let y := (50.5 - Latitude) * 55.2
  let y := y - OffsetY
  let y := if y > ImgHeight - OffsetY * 2 then ImgHeight - OffsetY * 2
           else if y < 0 then 0 else y
  let x := ((-127.5 - Longitude) * 41.775) * -1
  let x := x - OffsetX
  let x := if x > ImgWidth - OffsetX * 2 then ImgWidth - OffsetX * 2
           else if x < 0 then 0 else x
  { x := x, y := y }

/-- Source lines 168-195, the instance method `getXYFromLatitudeLongitude`: it
dispatches on `state` through `this` (lines 169-170), and otherwise projects with the
constants of the continental map (lines 171-194). -/
def getXYFromLatitudeLongitude (Latitude Longitude OffsetX OffsetY : ℚ) (state : String) :
    Except JsError XY :=
  if state = "AK" then
    callThis "getXYFromLatitudeLongitudeAK"
      (getXYFromLatitudeLongitudeAK Latitude Longitude OffsetX OffsetY)
  else if state = "HI" then
    callThis "getXYFromLatitudeLongitudeHI"
      (getXYFromLatitudeLongitudeHI Latitude Longitude OffsetX OffsetY)
  else
    Except.ok (getXYFromLatitudeLongitudeBody Latitude Longitude OffsetX OffsetY)

/-! ## Inverse projection: source pixel to latitude/longitude limits -/

/-- Source lines 264-273, `static getMinMaxLatitudeLongitudeAK`. -/
def getMinMaxLatitudeLongitudeAK (X Y OffsetX OffsetY : ℚ) : MinMaxLatLon :=
  let maxLat := ((Y / 56) - 73.0) * -1
  let minLat := (((Y + (OffsetY * 2)) / 56) - 73.0) * -1
  let minLon := (((X * -1) / 25) + 175.0) * -1
  let maxLon := ((((X + (OffsetX * 2)) * -1) / 25) + 175.0) * -1
  { minLat := minLat, maxLat := maxLat, minLon := minLon, maxLon := maxLon }

/-- Source lines 275-284, `static getMinMaxLatitudeLongitudeHI`. -/
def getMinMaxLatitudeLongitudeHI (X Y OffsetX OffsetY : ℚ) : MinMaxLatLon :=
  let maxLat := ((Y / 55.2) - 25) * -1
  let minLat := (((Y + (OffsetY * 2)) / 55.2) - 25) * -1
  let minLon := (((X * -1) / 41.775) + 164.5) * -1
  let maxLon := ((((X + (OffsetX * 2)) * -1) / 41.775) + 164.5) * -1
  { minLat := minLat, maxLat := maxLat, minLon := minLon, maxLon := maxLon }

/-- Source lines 251-262, the instance method `getMinMaxLatitudeLongitude`. -/
def getMinMaxLatitudeLongitude (X Y OffsetX OffsetY : ℚ) (state : String) :
    Except JsError MinMaxLatLon :=
  if state = "AK" then
    callThis "getMinMaxLatitudeLongitudeAK" (getMinMaxLatitudeLongitudeAK X Y OffsetX OffsetY)
  else if state = "HI" then
    callThis "getMinMaxLatitudeLongitudeHI" (getMinMaxLatitudeLongitudeHI X Y OffsetX OffsetY)
  else
    let maxLat := ((Y / 55.2) - 50.5) * -1
    let minLat := (((Y + (OffsetY * 2)) / 55.2) - 50.5) * -1
    let minLon := (((X * -1) / 41.775) + 127.5) * -1
    let maxLon := ((((X + (OffsetX * 2)) * -1) / 41.775) + 127.5) * -1
    Except.ok { minLat := minLat, maxLat := maxLat, minLon := minLon, maxLon := maxLon }

/-! ## Placement of a city on the cropped map -/

/-- A candidate city: an entry of `RegionalCities` or of `StationInfo`.  `city` is the
display name; `targetDistance` is absent on entries that do not carry one. -/
structure City where
  city : String
  lat : ℚ
  lon : ℚ
  targetDistance : Option ℚ
  deriving DecidableEq, Repr

/-- Source lines 301-311, `static getXYForCityAK`. -/
def getXYForCityAK (City : City) (MaxLatitude MinLongitude : ℚ) : XY :=
  let x := (City.lon - MinLongitude) * 37
  let y := (MaxLatitude - City.lat) * 70
  let y := if y < 30 then 30 else y
  let y := if y > 282 then 282 else y
  let x := if x < 40 then 40 else x
  let x := if x > 580 then 580 else x
  { x := x, y := y }

/-- Source lines 313-324, `static getXYForCityHI`. -/
def getXYForCityHI (City : City) (MaxLatitude MinLongitude : ℚ) : XY :=
  let x := (City.lon - MinLongitude) * 57
  let y := (MaxLatitude - City.lat) * 70
  let y := if y < 30 then 30 else y
  let y := if y > 282 then 282 else y
  let x := if x < 40 then 40 else x
  let x := if x > 580 then 580 else x
  { x := x, y := y }

/-- The statements of `getXYForCity` that follow its two `if (state === ...)` lines
(source lines 289-298). -/
def getXYForCityBody (City : City) (MaxLatitude MinLongitude : ℚ) : XY :=
  let x := (City.lon - MinLongitude) * 57
  let y := (MaxLatitude - City.lat) * 70
  let y := if y < 30 then 30 else y
  let y := if y > 282 then 282 else y
  let x := if x < 40 then 40 else x
  let x := if x > 580 then 580 else x
  { x := x, y := y }

/-- Source lines 286-299, the instance method `getXYForCity`.  The two region lines are
expression statements (`if (state === 'AK') this.getXYForCityAK(...)`, without `return`):
the call is evaluated, its value dropped, and control continues with the body. -/
def getXYForCity (City : City) (MaxLatitude MinLongitude : ℚ) (state : String) :
    Except JsError XY := do
  if state = "AK" then
    let _ ← callThis "getXYForCityAK" (getXYForCityAK City MaxLatitude MinLongitude)
  if state = "HI" then
    let _ ← callThis "getXYForCityHI" (getXYForCityHI City MaxLatitude MinLongitude)
  pure (getXYForCityBody City MaxLatitude MinLongitude)

/-! ## City selection (the loop of `getData`, source lines 52-66) -/

/-- The value of `city.targetDistance || 1`: an absent field and the number `0` are
falsy, so both give `1`. -/
def targetDist (city : City) : ℚ :=
  match city.targetDistance with
  | none => 1
  | some d => if d = 0 then 1 else d

/-- The test of source lines 55-56. -/
def inBox (box : MinMaxLatLon) (city : City) : Prop :=
  city.lat > box.minLat ∧ city.lat < box.maxLat
    ∧ city.lon > box.minLon ∧ city.lon < box.maxLon - 1

instance (box : MinMaxLatLon) (city : City) : Decidable (inBox box city) := by
  unfold inBox; infer_instance

/-- Source lines 60-63: the `reduce` over the cities accepted so far.  `distance` stands
for `utils.calc.distance`, a helper of another module. -/
def okToAddCity (distance : ℚ → ℚ → ℚ → ℚ → ℚ) (regionalCities : List City) (city : City) :
    Bool :=
  let targetDist := targetDist city
  regionalCities.foldl
    (fun acc testCity =>
      let distance := distance city.lon city.lat testCity.lon testCity.lat
      acc && decide (distance ≥ targetDist))
    true

/-- One round of the `forEach` callback (source lines 54-66); `push` appends. -/
def selectStep (distance : ℚ → ℚ → ℚ → ℚ → ℚ) (box : MinMaxLatLon)
    (regionalCities : List City) (city : City) : List City :=
  if inBox box city then
    if okToAddCity distance regionalCities city then regionalCities ++ [city]
    else regionalCities
  else regionalCities

/-- The list `regionalCities` after `combinedCities.forEach(...)`, starting from `[]`. -/
def selectCities (distance : ℚ → ℚ → ℚ → ℚ → ℚ) (box : MinMaxLatLon)
    (combinedCities : List City) : List City :=
  combinedCities.foldl (selectStep distance box) []

/-- Modelled from the spec: `utils.calc.distance`, which belongs to another module of
the repository.  The spec describes it as the planar (Euclidean) distance in lon/lat
degree space.  The square root is taken in `ℚ`; it is exact whenever the squared
distance is the square of a rational, which is the case at the inputs it is evaluated
on below. -/
def calcDistance (x1 y1 x2 y2 : ℚ) : ℚ :=
  Rat.sqrt ((x2 - x1) * (x2 - x1) + (y2 - y1) * (y2 - y1))

/-! ## Name formatting -/

/-- The characters excluded by the class `[^-;/\\,]`: hyphen, semicolon, slash,
backslash (code 92) and comma. -/
def punctuation : List Char := ['-', ';', '/', Char.ofNat 92, ',']

/-- Source lines 326-329, `formatCity`.  A string is the list of its code units.  The
pattern `[^-;/\\,]*` is unanchored and can match the empty string, so the match
succeeds at index 0 and, being greedy, takes every leading unit outside the class;
`substr(0, 12)` keeps at most the first 12 units of it. -/
def formatCity (city : List Char) : List Char :=
  ((city.takeWhile (fun c => decide (c ∉ punctuation))).take 12)

/-! ## The projection as the specification words it -/

/-- The six constants of a region (the specification: "each region defines ... image
height, image width, latitude scale factor, latitude origin, longitude scale factor,
longitude origin"). -/
structure RegionConstants where
  ImgHeight : ℚ
  ImgWidth : ℚ
  latScale : ℚ
  latOrigin : ℚ
  lonScale : ℚ
  lonOrigin : ℚ

/-- Constants of the default (continental) region. -/
def defaultConstants : RegionConstants :=
  { ImgHeight := 1600, ImgWidth := 2550, latScale := 55.2, latOrigin := 50.5,
    lonScale := 41.775, lonOrigin := -127.5 }

/-- Constants of Alaska. -/
def alaskaConstants : RegionConstants :=
  { ImgHeight := 1142, ImgWidth := 1200, latScale := 56, latOrigin := 73,
    lonScale := 25, lonOrigin := -175 }

/-- Constants of Hawaii. -/
def hawaiiConstants : RegionConstants :=
  { ImgHeight := 571, ImgWidth := 600, latScale := 55.2, latOrigin := 25,
    lonScale := 41.775, lonOrigin := -164.5 }

/-- The value `v` clamped to `[lo, hi]`. -/
def clamp (v lo hi : ℚ) : ℚ := max lo (min v hi)

/-- The specification of the projection: one parametric function of the constants. -/
def specToPixel (c : RegionConstants) (lat lon OffsetX OffsetY : ℚ) : XY :=
  { x := clamp ((lon - c.lonOrigin) * c.lonScale - OffsetX) 0 (c.ImgWidth - 2 * OffsetX),
    y := clamp ((c.latOrigin - lat) * c.latScale - OffsetY) 0 (c.ImgHeight - 2 * OffsetY) }

/-! ## Predicates used in the statements -/

/-- The pixel lies in the rectangle `[0, w] × [0, h]`. -/
def XY.within (p : XY) (w h : ℚ) : Prop :=
  0 ≤ p.x ∧ p.x ≤ w ∧ 0 ≤ p.y ∧ p.y ≤ h

/-- The projection of `(lat, lon)` with the constants `c` is not clamped: the values
before clamping already lie in the clamp ranges. -/
def unclamped (c : RegionConstants) (lat lon OffsetX OffsetY : ℚ) : Prop :=
  0 ≤ (lon - c.lonOrigin) * c.lonScale - OffsetX
    ∧ (lon - c.lonOrigin) * c.lonScale - OffsetX ≤ c.ImgWidth - 2 * OffsetX
    ∧ 0 ≤ (c.latOrigin - lat) * c.latScale - OffsetY
    ∧ (c.latOrigin - lat) * c.latScale - OffsetY ≤ c.ImgHeight - 2 * OffsetY

/-- The box has the point `(lat, lon)` as its centre. -/
def MinMaxLatLon.centredAt (b : MinMaxLatLon) (lat lon : ℚ) : Prop :=
  (b.minLat + b.maxLat) / 2 = lat ∧ (b.minLon + b.maxLon) / 2 = lon

/-- The box contains the point `(lat, lon)`, bounds included. -/
def MinMaxLatLon.contains (b : MinMaxLatLon) (lat lon : ℚ) : Prop :=
  b.minLat ≤ lat ∧ lat ≤ b.maxLat ∧ b.minLon ≤ lon ∧ lon ≤ b.maxLon

/-- The relation the loop maintains between an earlier and a later accepted city: the
distance computed for the later one, with its own threshold. -/
def separated (distance : ℚ → ℚ → ℚ → ℚ → ℚ) (earlier later : City) : Prop :=
  distance later.lon later.lat earlier.lon earlier.lat ≥ targetDist later

/-- The list `p` is the longest beginning of `s` that holds no punctuation character:
it is a beginning of `s`, holds none, and no such beginning of `s` is longer. -/
def IsLongestClean (p s : List Char) : Prop :=
  p <+: s ∧ (∀ c ∈ p, c ∉ punctuation)
    ∧ ∀ q : List Char, q <+: s → (∀ c ∈ q, c ∉ punctuation) → q.length ≤ p.length

/-- The pixel sits at a corner of the rectangle `[0, w] × [0, h]`. -/
def XY.atCorner (p : XY) (w h : ℚ) : Prop :=
  (p.x = 0 ∨ p.x = w) ∧ (p.y = 0 ∨ p.y = h)

/-- The pixel lies in the label window `[40, 580] × [30, 282]`. -/
def XY.inWindow (p : XY) : Prop :=
  40 ≤ p.x ∧ p.x ≤ 580 ∧ 30 ≤ p.y ∧ p.y ≤ 282

/-! ## Concrete inputs used in the evaluations -/

/-- Anchorage. -/
def cityAnchorage : City :=
  { city := "Anchorage", lat := 61.2, lon := -149.9, targetDistance := none }

/-- A box around the central plains. -/
def plainsBox : MinMaxLatLon :=
  { minLat := 30, maxLat := 50, minLon := -110, maxLon := -90 }

/-- A candidate carrying the threshold 2.5. -/
def cityWide : City :=
  { city := "Wide", lat := 40, lon := -100, targetDistance := some 2.5 }

/-- A candidate without `targetDistance`, two degrees east of `cityWide`. -/
def cityNear : City :=
  { city := "Near", lat := 40, lon := -98, targetDistance := none }

/-- A candidate without `targetDistance`, at the place of `cityWide`. -/
def cityPlain : City :=
  { city := "Plain", lat := 40, lon := -100, targetDistance := none }

/-- A station-like candidate (threshold 2.5), three degrees east of `cityPlain`. -/
def cityStation : City :=
  { city := "Station", lat := 40, lon := -97, targetDistance := some 2.5 }

/-! ## The candidate list (source lines 42-50) -/

/-- Source lines 43-44: the target distance of the region. -/
def targetDistance (state : String) : ℚ :=
  if state = "HI" then 1 else 2.5

/-- Source line 47: every station of `StationInfo` gets the region's target distance. -/
def stationInfoArray (StationInfo : List City) (targetDistance : ℚ) : List City :=
  StationInfo.map (fun value => { value with targetDistance := some targetDistance })

/-- Source line 50: the curated cities, then the stations. -/
def combinedCities (RegionalCities StationInfo : List City) (targetDistance : ℚ) : List City :=
  RegionalCities ++ stationInfoArray StationInfo targetDistance

/-- A candidate without `targetDistance`, half a degree west of `cityPlain`. -/
def cityClose : City :=
  { city := "Close", lat := 40, lon := -100.5, targetDistance := none }

/-- A candidate whose `targetDistance` is the number 0, half a degree west of
`cityPlain`. -/
def cityZero : City :=
  { city := "Zero", lat := 40, lon := -100.5, targetDistance := some 0 }

/-- A candidate outside `plainsBox`. -/
def cityFar : City :=
  { city := "Far", lat := 60, lon := -100, targetDistance := none }

/-- The box has the size of the viewport: `2*OffsetY/latScale` by `2*OffsetX/lonScale`
degrees. -/
def MinMaxLatLon.hasViewportSize (b : MinMaxLatLon) (c : RegionConstants)
    (OffsetX OffsetY : ℚ) : Prop :=
  b.maxLat - b.minLat = 2 * OffsetY / c.latScale
    ∧ b.maxLon - b.minLon = 2 * OffsetX / c.lonScale

/-- The box lies inside the geographic extent of the region's image. -/
def MinMaxLatLon.insideImage (b : MinMaxLatLon) (c : RegionConstants) : Prop :=
  c.latOrigin - c.ImgHeight / c.latScale ≤ b.minLat ∧ b.minLat ≤ b.maxLat
    ∧ b.maxLat ≤ c.latOrigin
    ∧ c.lonOrigin ≤ b.minLon ∧ b.minLon ≤ b.maxLon
    ∧ b.maxLon ≤ c.lonOrigin + c.ImgWidth / c.lonScale

/-! ## Records and the per-city task (source lines 69-112 and 135-165) -/

/-- The part of `point.properties` the task reads: two URLs. -/
structure Point where
  forecast : String
  observationStations : String
  deriving DecidableEq, Repr

/-- The part of `observation.properties` the task reads: `icon` (absent when the payload
has none or `null`) and `temperature.value`. -/
structure Observation where
  icon : Option String
  temperature : Option ℚ
  deriving DecidableEq, Repr

/-- A forecast period, as far as `buildForecast` reads it. -/
structure Period where
  isDaytime : Bool
  temperature : Option ℚ
  icon : String
  startTime : String
  deriving DecidableEq, Repr

/-- A record of `regionalData`: the observation record has no `time` member. -/
structure ForecastRecord where
  daytime : Bool
  temperature : ℚ
  name : List Char
  icon : String
  x : ℚ
  y : ℚ
  time : Option String
  deriving DecidableEq, Repr

/-- The collaborators of other modules that the task calls; each answers with a value
or raises.  `fetchStations` stands for `utils.fetch.json` on the stations URL and gives
the `id`s of `features`, `fetchObservation` for `utils.fetch.json` on an observation
URL and gives `properties`, `fetchForecast` for `utils.fetch.json` on the forecast URL
and gives `properties.periods`. -/
structure External where
  getPoint : ℚ → ℚ → Except JsError Point
  fetchStations : String → Except JsError (List String)
  fetchObservation : String → Except JsError Observation
  fetchForecast : String → Except JsError (List Period)
  celsiusToFahrenheit : Option ℚ → ℚ

/-- The test `!!icon.match(/\/day\//)`: the text `/day/` occurs in `icon`. -/
def matchesDay (icon : String) : Bool :=
  icon.toList.tails.any (fun t => "/day/".toList.isPrefixOf t)

/-- Source lines 135-145, `static buildForecast`; `forecast.temperature || 0`. -/
def buildForecast (forecast : Period) (city : City) (cityXY : XY) : ForecastRecord :=
  { daytime := forecast.isDaytime
    temperature := match forecast.temperature with
      | some t => t
      | none => 0
    name := formatCity city.city.toList
    icon := forecast.icon
    x := cityXY.x
    y := cityXY.y
    time := some forecast.startTime }

/-- Source lines 147-165, `static getRegionalObservation` (called on the class, line 75):
the observation of the first station, or `false` (here `none`) when anything raises. -/
def getRegionalObservation (ext : External) (point : Point) : Option Observation :=
  let attempt : Except JsError Observation := do
    let stations ← ext.fetchStations point.observationStations
    let station ← match stations.head? with
      | some id => pure id
      | none => throw (JsError.cannotRead "id")
    let observation ← ext.fetchObservation (station ++ "/observations/latest")
    pure observation
  match attempt with
  | Except.ok observation => some observation
  | Except.error _ => none

/-- The `try` block of the per-city task, source lines 71-106. -/
def regionalForecastAttempt (ext : External) (MaxLatitude MinLongitude : ℚ) (state : String)
    (city : City) : Except JsError (List ForecastRecord) := do
  let point ← ext.getPoint city.lat city.lon
  let observationPromise := getRegionalObservation ext point
  let forecast ← ext.fetchForecast point.forecast
  let cityXY ← getXYForCity city MaxLatitude MinLongitude state
  let observation ← match observationPromise with
    | some observation => pure observation
    | none => throw (JsError.cannotRead "match")
  let icon ← match observation.icon with
    | some icon => pure icon
    | none => throw (JsError.cannotRead "match")
  let regionalObservation : ForecastRecord :=
    { daytime := matchesDay icon
      temperature := ext.celsiusToFahrenheit observation.temperature
      name := formatCity city.city.toList
      icon := icon
      x := cityXY.x
      y := cityXY.y
      time := none }
  let first ← match forecast[1]? with
    | some period => pure (buildForecast period city cityXY)
    | none => throw (JsError.cannotRead "isDaytime")
  let second ← match forecast[2]? with
    | some period => pure (buildForecast period city cityXY)
    | none => throw (JsError.cannotRead "isDaytime")
  pure [regionalObservation, first, second]

/-- The per-city task, source lines 69-112: the three records, or `false` (here `none`)
when the `try` block raised. -/
def regionalForecastTask (ext : External) (MaxLatitude MinLongitude : ℚ) (state : String)
    (city : City) : Option (List ForecastRecord) :=
  match regionalForecastAttempt ext MaxLatitude MinLongitude state city with
  | Except.ok records => some records
  | Except.error _ => none

/-! ## The end of `getData` (source lines 114-132) -/

/-- The members of the global `STATUS`; this file sets `noData` and `loaded`. -/
inductive STATUS where
  | loading
  | loaded
  | failed
  | noData
  | disabled
  deriving DecidableEq, Repr

/-- The object stored in `this.data`. -/
structure Data where
  regionalData : List (List ForecastRecord)
  offsetXY : XY
  sourceXY : XY
  deriving DecidableEq, Repr

/-- The two members of the display that `getData` writes. -/
structure Display where
  status : STATUS
  data : Option Data
  deriving DecidableEq, Repr

/-- Source lines 114-132.  `filter((data) => data)` drops the entries `false` and keeps
the arrays (an array is truthy); with no entry left the status becomes `noData` and
the method returns before the assignment of `this.data`. -/
def finishGetData (regionalDataAll : List (Option (List ForecastRecord)))
    (offsetXY sourceXY : XY) (display : Display) : Display :=
  let regionalData := regionalDataAll.filterMap (fun data => data)
  if regionalData.length = 0 then
    { display with status := STATUS.noData }
  else
    { status := STATUS.loaded
      data := some { regionalData := regionalData, offsetXY := offsetXY, sourceXY := sourceXY } }

/-- The weather parameters `getData` reads. -/
structure WeatherParameters where
  latitude : ℚ
  longitude : ℚ
  state : String
  deriving DecidableEq, Repr

/-- Source lines 18-133, `getData`, from line 31 on; `display` is the display as
`super.getData` left it.  The image loads of lines 22-29 do not take part. -/
def getData (ext : External) (distance : ℚ → ℚ → ℚ → ℚ → ℚ)
    (RegionalCities StationInfo : List City) (weatherParameters : WeatherParameters)
    (display : Display) : Except JsError Display := do
  let offsetXY : XY := { x := 240, y := 117 }
  let sourceXY ← getXYFromLatitudeLongitude weatherParameters.latitude
    weatherParameters.longitude offsetXY.x offsetXY.y weatherParameters.state
  let minMaxLatLon ← getMinMaxLatitudeLongitude sourceXY.x sourceXY.y offsetXY.x offsetXY.y
    weatherParameters.state
  let targetDistance := targetDistance weatherParameters.state
  let combinedCities := combinedCities RegionalCities StationInfo targetDistance
  let regionalCities := selectCities distance minMaxLatLon combinedCities
  let regionalDataAll := regionalCities.map
    (regionalForecastTask ext minMaxLatLon.maxLat minMaxLatLon.minLon weatherParameters.state)
  pure (finishGetData regionalDataAll offsetXY sourceXY display)

/-! ## Concrete collaborators used in the evaluations -/

/-- Three forecast periods. -/
def examplePeriods : List Period :=
  [ { isDaytime := true, temperature := some 71, icon := "https://api/icons/land/day/few",
      startTime := "2024-05-01T06:00:00-05:00" },
    { isDaytime := false, temperature := some 55, icon := "https://api/icons/land/night/sct",
      startTime := "2024-05-01T18:00:00-05:00" },
    { isDaytime := true, temperature := none, icon := "https://api/icons/land/day/rain",
      startTime := "2024-05-02T06:00:00-05:00" } ]

/-- Collaborators that all answer. -/
def extOk : External :=
  { getPoint := fun _ _ =>
      Except.ok { forecast := "https://api/forecast", observationStations := "https://api/stations" }
    fetchStations := fun _ => Except.ok ["https://api/stations/KXYZ"]
    fetchObservation := fun _ =>
      Except.ok { icon := some "https://api/icons/land/day/skc", temperature := some 20 }
    fetchForecast := fun _ => Except.ok examplePeriods
    celsiusToFahrenheit := fun v =>
      match v with
      | some c => c * 9 / 5 + 32
      | none => 32 }

/-- Collaborators whose station lookup fails while point and forecast answer. -/
def extNoObservation : External :=
  { extOk with fetchStations := fun url => Except.error (JsError.rejected url) }

/-- Collaborators whose forecast fetch fails while point and observation answer. -/
def extNoForecast : External :=
  { extOk with fetchForecast := fun url => Except.error (JsError.rejected url) }

/-- Collaborators whose point lookup fails. -/
def extNoPoint : External :=
  { extOk with getPoint := fun _ _ => Except.error (JsError.rejected "point") }

/-- The display before the first load. -/
def displayLoading : Display :=
  { status := STATUS.loading, data := none }

/-- The point `extOk` answers with. -/
def examplePoint : Point :=
  { forecast := "https://api/forecast", observationStations := "https://api/stations" }

/-- The three records of `cityPlain` under `extOk`, with `MaxLatitude = 42` and
`MinLongitude = -110`. -/
def exampleRecords : List ForecastRecord :=
  [ { daytime := true, temperature := 68, name := "Plain".toList,
      icon := "https://api/icons/land/day/skc", x := 570, y := 140, time := none },
    { daytime := false, temperature := 55, name := "Plain".toList,
      icon := "https://api/icons/land/night/sct", x := 570, y := 140,
      time := some "2024-05-01T18:00:00-05:00" },
    { daytime := true, temperature := 0, name := "Plain".toList,
      icon := "https://api/icons/land/day/rain", x := 570, y := 140,
      time := some "2024-05-02T06:00:00-05:00" } ]

/-! ## Drawing the labels (source lines 336-385 of `drawCanvas`) -/

/-- What `drawCanvas` hands to the drawing collaborators for a city: the object passed to
`utils.image.superGifAsync` (its `src`, `max_width`, `x`, `y`) and the arguments of
`draw.text` after the context (font, size, colour, x, y, text, shadow). -/
inductive DrawCommand where
  | gif (src : String) (max_width : ℚ) (x y : ℚ)
  | text (font size color : String) (x y : ℚ) (text : String) (shadow : ℚ)
  deriving DecidableEq, Repr

/-- The collaborators `drawCanvas` consults for a city: the icon resolver (it may give
no icon), whether `navigation.units() === UNITS.metric`, `utils.units.fahrenheitToCelsius`
and the string form of a number (`toString`). -/
structure DrawExternal where
  getWeatherRegionalIconFromIconLink : String → Bool → Option String
  metric : Bool
  fahrenheitToCelsius : ℚ → ℚ
  numberToString : ℚ → String

/-- `Math.round`: the nearest integer, halves upwards. -/
def mathRound (v : ℚ) : ℚ := (⌊v + 1 / 2⌋ : ℤ)

/-- The temperature shown for a record (source lines 382-383). -/
def displayedTemperature (ext : DrawExternal) (period : ForecastRecord) : ℚ :=
  if ext.metric then mathRound (ext.fahrenheitToCelsius period.temperature)
  else period.temperature

/-- The callback of source lines 363-385 for the record `period` of a city. -/
def drawCity (ext : DrawExternal) (period : ForecastRecord) : List DrawCommand :=
  let mapYOff : ℚ := 90
  let icon := ext.getWeatherRegionalIconFromIconLink period.icon (!period.daytime)
  let gifs :=
    match icon with
    | some src => [DrawCommand.gif src 42 period.x (period.y - 15 + mapYOff)]
    | none => []
  let name := DrawCommand.text "Star4000" "20px" "#ffffff" (period.x - 40)
    (period.y - 15 + mapYOff) (String.mk period.name) 2
  let temperature := displayedTemperature ext period
  let temperatureText := DrawCommand.text "Star4000 Large Compressed" "28px" "#ffff00"
    (period.x - ((ext.numberToString temperature).length * 15)) (period.y + 20 + mapYOff)
    (ext.numberToString temperature) 2
  gifs ++ [name, temperatureText]

/-- Source lines 363-364: every city's record of the active screen index is drawn;
reading a member of a missing record raises. -/
def drawLabels (ext : DrawExternal) (data : List (List ForecastRecord)) (screenIndex : ℕ) :
    Except JsError (List (List DrawCommand)) :=
  data.mapM (fun city =>
    match city[screenIndex]? with
    | some period => Except.ok (drawCity ext period)
    | none => Except.error (JsError.cannotRead "icon"))

/-! ## Results -/

/-! ### Method lookup -/

/-- No static method of the class is reachable from an instance. -/
theorem static_not_on_instance : ∀ m ∈ staticMethods, m ∉ instanceMethods := by
  decide

theorem callThis_static (name : String) (h : name ∉ instanceMethods) {α : Type} (p : α) :
    callThis name p = Except.error (JsError.notAFunction name) := by
  simp [callThis, h]

theorem getXYFromLatitudeLongitude_AK (lat lon ox oy : ℚ) :
    getXYFromLatitudeLongitude lat lon ox oy "AK"
      = Except.error (JsError.notAFunction "getXYFromLatitudeLongitudeAK") := by
  rw [getXYFromLatitudeLongitude, if_pos rfl]
  exact callThis_static _ (by decide) _

theorem getXYFromLatitudeLongitude_HI (lat lon ox oy : ℚ) :
    getXYFromLatitudeLongitude lat lon ox oy "HI"
      = Except.error (JsError.notAFunction "getXYFromLatitudeLongitudeHI") := by
  rw [getXYFromLatitudeLongitude, if_neg (by decide), if_pos rfl]
  exact callThis_static _ (by decide) _

theorem getMinMaxLatitudeLongitude_AK (X Y ox oy : ℚ) :
    getMinMaxLatitudeLongitude X Y ox oy "AK"
      = Except.error (JsError.notAFunction "getMinMaxLatitudeLongitudeAK") := by
  rw [getMinMaxLatitudeLongitude, if_pos rfl]
  exact callThis_static _ (by decide) _

theorem getMinMaxLatitudeLongitude_HI (X Y ox oy : ℚ) :
    getMinMaxLatitudeLongitude X Y ox oy "HI"
      = Except.error (JsError.notAFunction "getMinMaxLatitudeLongitudeHI") := by
  rw [getMinMaxLatitudeLongitude, if_neg (by decide), if_pos rfl]
  exact callThis_static _ (by decide) _

/-- For a state other than `'AK'` and `'HI'` the projection runs the continental body. -/
theorem getXYFromLatitudeLongitude_default (lat lon ox oy : ℚ) (state : String)
    (hAK : state ≠ "AK") (hHI : state ≠ "HI") :
    getXYFromLatitudeLongitude lat lon ox oy state
      = Except.ok
          { x := if (lon + 127.5) * 41.775 - ox > 2550 - ox * 2 then 2550 - ox * 2
                 else if (lon + 127.5) * 41.775 - ox < 0 then 0
                 else (lon + 127.5) * 41.775 - ox,
            y := if (50.5 - lat) * 55.2 - oy > 1600 - oy * 2 then 1600 - oy * 2
                 else if (50.5 - lat) * 55.2 - oy < 0 then 0
                 else (50.5 - lat) * 55.2 - oy } := by
  rw [getXYFromLatitudeLongitude, if_neg hAK, if_neg hHI]
  have e : ((-127.5 - lon) * 41.775) * -1 = (lon + 127.5) * 41.775 := by ring
  simp only [getXYFromLatitudeLongitudeBody, e]

theorem getMinMaxLatitudeLongitude_default (X Y ox oy : ℚ) (state : String)
    (hAK : state ≠ "AK") (hHI : state ≠ "HI") :
    getMinMaxLatitudeLongitude X Y ox oy state
      = Except.ok
          { minLat := 50.5 - (Y + oy * 2) / 55.2, maxLat := 50.5 - Y / 55.2,
            minLon := X / 41.775 - 127.5, maxLon := (X + ox * 2) / 41.775 - 127.5 } := by
  rw [getMinMaxLatitudeLongitude, if_neg hAK, if_neg hHI]
  simp only [Except.ok.injEq, MinMaxLatLon.mk.injEq]
  refine ⟨?_, ?_, ?_, ?_⟩ <;> ring

/-! ### Clamp ranges of the three projection bodies -/

theorem getXYFromLatitudeLongitude_within (lat lon : ℚ) (state : String)
    (hAK : state ≠ "AK") (hHI : state ≠ "HI") :
    ∃ p, getXYFromLatitudeLongitude lat lon 240 117 state = Except.ok p
      ∧ p.within (2550 - 2 * 240) (1600 - 2 * 117) := by
  refine ⟨_, getXYFromLatitudeLongitude_default lat lon 240 117 state hAK hHI, ?_⟩
  simp only [XY.within]
  refine ⟨?_, ?_, ?_, ?_⟩ <;> split_ifs <;> norm_num at * <;> linarith

theorem getXYFromLatitudeLongitudeAK_within (lat lon : ℚ) :
    (getXYFromLatitudeLongitudeAK lat lon 240 117).within (1200 - 2 * 240) (1142 - 2 * 117) := by
  simp only [getXYFromLatitudeLongitudeAK, XY.within]
  refine ⟨?_, ?_, ?_, ?_⟩ <;> split_ifs <;> norm_num at * <;> linarith

theorem getXYFromLatitudeLongitudeHI_within (lat lon : ℚ) :
    (getXYFromLatitudeLongitudeHI lat lon 240 117).within (600 - 2 * 240) (571 - 2 * 117) := by
  simp only [getXYFromLatitudeLongitudeHI, XY.within]
  refine ⟨?_, ?_, ?_, ?_⟩ <;> split_ifs <;> norm_num at * <;> linarith

/-- C1 (clamp range of the projection, offset 240 x 117).  Each of the three
projection bodies returns a point of `[0, ImgWidth - 2*OffsetX] × [0, ImgHeight - 2*OffsetY]`,
and for a state other than `'AK'` and `'HI'` the method `getXYFromLatitudeLongitude`
returns such a point; for the states `'AK'` and `'HI'` the method returns no point: its
call of the static variant through `this` raises a `TypeError`. -/
theorem C1_projection_clamp_range :
    (∀ lat lon : ℚ, getXYFromLatitudeLongitude lat lon 240 117 "AK"
        = Except.error (JsError.notAFunction "getXYFromLatitudeLongitudeAK"))
    ∧ (∀ lat lon : ℚ, getXYFromLatitudeLongitude lat lon 240 117 "HI"
        = Except.error (JsError.notAFunction "getXYFromLatitudeLongitudeHI"))
    ∧ (∀ (lat lon : ℚ) (state : String), state ≠ "AK" → state ≠ "HI" →
        ∃ p, getXYFromLatitudeLongitude lat lon 240 117 state = Except.ok p
          ∧ p.within (2550 - 2 * 240) (1600 - 2 * 117))
    ∧ (∀ lat lon : ℚ,
        (getXYFromLatitudeLongitudeAK lat lon 240 117).within (1200 - 2 * 240) (1142 - 2 * 117))
    ∧ (∀ lat lon : ℚ,
        (getXYFromLatitudeLongitudeHI lat lon 240 117).within (600 - 2 * 240) (571 - 2 * 117)) :=
  ⟨fun lat lon => getXYFromLatitudeLongitude_AK lat lon 240 117,
   fun lat lon => getXYFromLatitudeLongitude_HI lat lon 240 117,
   getXYFromLatitudeLongitude_within,
   getXYFromLatitudeLongitudeAK_within,
   getXYFromLatitudeLongitudeHI_within⟩

/-! ### Projection followed by the inverse -/

theorem roundTrip_default (lat lon ox oy : ℚ) (state : String)
    (hAK : state ≠ "AK") (hHI : state ≠ "HI")
    (h : unclamped defaultConstants lat lon ox oy) :
    ∃ p b, getXYFromLatitudeLongitude lat lon ox oy state = Except.ok p
      ∧ getMinMaxLatitudeLongitude p.x p.y ox oy state = Except.ok b
      ∧ b.centredAt lat lon ∧ (0 ≤ ox → 0 ≤ oy → b.contains lat lon) := by
  obtain ⟨hx0, hx1, hy0, hy1⟩ := h
  simp only [defaultConstants] at hx0 hx1 hy0 hy1
  refine ⟨_, _, getXYFromLatitudeLongitude_default lat lon ox oy state hAK hHI,
    getMinMaxLatitudeLongitude_default _ _ ox oy state hAK hHI, ?_, ?_⟩
  · have ex : ¬ ((lon + 127.5) * 41.775 - ox > 2550 - ox * 2) := by
      norm_num at hx1 ⊢; linarith
    have ex0 : ¬ ((lon + 127.5) * 41.775 - ox < 0) := by norm_num at hx0 ⊢; linarith
    have ey : ¬ ((50.5 - lat) * 55.2 - oy > 1600 - oy * 2) := by
      norm_num at hy1 ⊢; linarith
    have ey0 : ¬ ((50.5 - lat) * 55.2 - oy < 0) := by norm_num at hy0 ⊢; linarith
    simp only [MinMaxLatLon.centredAt, if_neg ex, if_neg ex0, if_neg ey, if_neg ey0]
    constructor <;> norm_num <;> ring
  · intro hox hoy
    have ex : ¬ ((lon + 127.5) * 41.775 - ox > 2550 - ox * 2) := by
      norm_num at hx1 ⊢; linarith
    have ex0 : ¬ ((lon + 127.5) * 41.775 - ox < 0) := by norm_num at hx0 ⊢; linarith
    have ey : ¬ ((50.5 - lat) * 55.2 - oy > 1600 - oy * 2) := by
      norm_num at hy1 ⊢; linarith
    have ey0 : ¬ ((50.5 - lat) * 55.2 - oy < 0) := by norm_num at hy0 ⊢; linarith
    simp only [MinMaxLatLon.contains, if_neg ex, if_neg ex0, if_neg ey, if_neg ey0]
    refine ⟨?_, ?_, ?_, ?_⟩ <;> norm_num <;> linarith

theorem roundTrip_AK (lat lon ox oy : ℚ) (h : unclamped alaskaConstants lat lon ox oy) :
    (getMinMaxLatitudeLongitudeAK (getXYFromLatitudeLongitudeAK lat lon ox oy).x
        (getXYFromLatitudeLongitudeAK lat lon ox oy).y ox oy).centredAt lat lon
    ∧ (0 ≤ ox → 0 ≤ oy →
        (getMinMaxLatitudeLongitudeAK (getXYFromLatitudeLongitudeAK lat lon ox oy).x
          (getXYFromLatitudeLongitudeAK lat lon ox oy).y ox oy).contains lat lon) := by
  obtain ⟨hx0, hx1, hy0, hy1⟩ := h
  simp only [alaskaConstants] at hx0 hx1 hy0 hy1
  have ex : ¬ ((-175.0 - lon) * 25.0 * -1 - ox > 1200 - ox * 2) := by
    norm_num at hx1 ⊢; linarith
  have ex0 : ¬ ((-175.0 - lon) * 25.0 * -1 - ox < 0) := by norm_num at hx0 ⊢; linarith
  have ey : ¬ ((73.0 - lat) * 56 - oy > 1142 - oy * 2) := by norm_num at hy1 ⊢; linarith
  have ey0 : ¬ ((73.0 - lat) * 56 - oy < 0) := by norm_num at hy0 ⊢; linarith
  simp only [getXYFromLatitudeLongitudeAK, getMinMaxLatitudeLongitudeAK,
    MinMaxLatLon.centredAt, MinMaxLatLon.contains, if_neg ex, if_neg ex0, if_neg ey, if_neg ey0]
  refine ⟨⟨?_, ?_⟩, fun hox hoy => ⟨?_, ?_, ?_, ?_⟩⟩ <;> norm_num <;> linarith

theorem roundTrip_HI (lat lon ox oy : ℚ) (h : unclamped hawaiiConstants lat lon ox oy) :
    (getMinMaxLatitudeLongitudeHI (getXYFromLatitudeLongitudeHI lat lon ox oy).x
        (getXYFromLatitudeLongitudeHI lat lon ox oy).y ox oy).centredAt lat lon
    ∧ (0 ≤ ox → 0 ≤ oy →
        (getMinMaxLatitudeLongitudeHI (getXYFromLatitudeLongitudeHI lat lon ox oy).x
          (getXYFromLatitudeLongitudeHI lat lon ox oy).y ox oy).contains lat lon) := by
  obtain ⟨hx0, hx1, hy0, hy1⟩ := h
  simp only [hawaiiConstants] at hx0 hx1 hy0 hy1
  have ex : ¬ ((-164.5 - lon) * 41.775 * -1 - ox > 600 - ox * 2) := by
    norm_num at hx1 ⊢; linarith
  have ex0 : ¬ ((-164.5 - lon) * 41.775 * -1 - ox < 0) := by norm_num at hx0 ⊢; linarith
  have ey : ¬ ((25 - lat) * 55.2 - oy > 571 - oy * 2) := by norm_num at hy1 ⊢; linarith
  have ey0 : ¬ ((25 - lat) * 55.2 - oy < 0) := by norm_num at hy0 ⊢; linarith
  simp only [getXYFromLatitudeLongitudeHI, getMinMaxLatitudeLongitudeHI,
    MinMaxLatLon.centredAt, MinMaxLatLon.contains, if_neg ex, if_neg ex0, if_neg ey, if_neg ey0]
  refine ⟨⟨?_, ?_⟩, fun hox hoy => ⟨?_, ?_, ?_, ?_⟩⟩ <;> norm_num <;> linarith

/-- C2 (projection followed by the inverse).  For a point that is not clamped, the box
computed from the projected pixel has the point as its centre, and contains it when the
offsets are non-negative: this holds for the continental body through the two instance
methods and for the Alaska and Hawaii bodies.  Through the instance methods the states
`'AK'` and `'HI'` give no box at all: both methods raise a `TypeError`, as at the
unclamped point (61.2, -149.9) with offset 240 x 117. -/
theorem C2_projection_inverse_round_trip :
    (unclamped alaskaConstants 61.2 (-149.9) 240 117
      ∧ getXYFromLatitudeLongitude 61.2 (-149.9) 240 117 "AK"
          = Except.error (JsError.notAFunction "getXYFromLatitudeLongitudeAK"))
    ∧ (∀ X Y ox oy : ℚ, getMinMaxLatitudeLongitude X Y ox oy "AK"
          = Except.error (JsError.notAFunction "getMinMaxLatitudeLongitudeAK"))
    ∧ (∀ lat lon ox oy : ℚ, getXYFromLatitudeLongitude lat lon ox oy "HI"
          = Except.error (JsError.notAFunction "getXYFromLatitudeLongitudeHI"))
    ∧ (∀ X Y ox oy : ℚ, getMinMaxLatitudeLongitude X Y ox oy "HI"
          = Except.error (JsError.notAFunction "getMinMaxLatitudeLongitudeHI"))
    ∧ (∀ (lat lon ox oy : ℚ) (state : String), state ≠ "AK" → state ≠ "HI" →
        unclamped defaultConstants lat lon ox oy →
        ∃ p b, getXYFromLatitudeLongitude lat lon ox oy state = Except.ok p
          ∧ getMinMaxLatitudeLongitude p.x p.y ox oy state = Except.ok b
          ∧ b.centredAt lat lon ∧ (0 ≤ ox → 0 ≤ oy → b.contains lat lon))
    ∧ (∀ lat lon ox oy : ℚ, unclamped alaskaConstants lat lon ox oy →
        (getMinMaxLatitudeLongitudeAK (getXYFromLatitudeLongitudeAK lat lon ox oy).x
            (getXYFromLatitudeLongitudeAK lat lon ox oy).y ox oy).centredAt lat lon
        ∧ (0 ≤ ox → 0 ≤ oy →
            (getMinMaxLatitudeLongitudeAK (getXYFromLatitudeLongitudeAK lat lon ox oy).x
              (getXYFromLatitudeLongitudeAK lat lon ox oy).y ox oy).contains lat lon))
    ∧ (∀ lat lon ox oy : ℚ, unclamped hawaiiConstants lat lon ox oy →
        (getMinMaxLatitudeLongitudeHI (getXYFromLatitudeLongitudeHI lat lon ox oy).x
            (getXYFromLatitudeLongitudeHI lat lon ox oy).y ox oy).centredAt lat lon
        ∧ (0 ≤ ox → 0 ≤ oy →
            (getMinMaxLatitudeLongitudeHI (getXYFromLatitudeLongitudeHI lat lon ox oy).x
              (getXYFromLatitudeLongitudeHI lat lon ox oy).y ox oy).contains lat lon)) :=
  ⟨⟨by norm_num [unclamped, alaskaConstants], getXYFromLatitudeLongitude_AK _ _ _ _⟩,
   getMinMaxLatitudeLongitude_AK,
   getXYFromLatitudeLongitude_HI,
   getMinMaxLatitudeLongitude_HI,
   roundTrip_default, roundTrip_AK, roundTrip_HI⟩

/-! ### City selection -/

theorem foldl_and_eq_all {α : Type} (p : α → Bool) (l : List α) (b : Bool) :
    l.foldl (fun acc t => acc && p t) b = (b && l.all p) := by
  induction l generalizing b with
  | nil => simp
  | cons t l ih => simp [List.foldl_cons, ih, Bool.and_assoc]

/-- The `reduce` of lines 60-63 answers `true` exactly when every accepted city is at
least `targetDist city` away. -/
theorem okToAddCity_iff (distance : ℚ → ℚ → ℚ → ℚ → ℚ) (regionalCities : List City)
    (city : City) :
    okToAddCity distance regionalCities city = true
      ↔ ∀ testCity ∈ regionalCities,
          distance city.lon city.lat testCity.lon testCity.lat ≥ targetDist city := by
  have h := foldl_and_eq_all
    (fun testCity : City => decide (distance city.lon city.lat testCity.lon testCity.lat
      ≥ targetDist city)) regionalCities true
  unfold okToAddCity
  simp only [h]
  simp

/-- A round of the loop leaves the list as it is or appends the city. -/
theorem selectStep_cases (distance : ℚ → ℚ → ℚ → ℚ → ℚ) (box : MinMaxLatLon)
    (acc : List City) (city : City) :
    (selectStep distance box acc city = acc
        ∧ ¬ (inBox box city ∧ okToAddCity distance acc city = true))
    ∨ (selectStep distance box acc city = acc ++ [city]
        ∧ inBox box city ∧ okToAddCity distance acc city = true) := by
  unfold selectStep
  by_cases hb : inBox box city
  · by_cases ho : okToAddCity distance acc city = true
    · right; simp [hb, ho]
    · left; simp [hb, ho]
  · left; simp [hb]

theorem selectStep_accept (distance : ℚ → ℚ → ℚ → ℚ → ℚ) (box : MinMaxLatLon)
    (acc : List City) (city : City) (hb : inBox box city)
    (ho : ∀ testCity ∈ acc,
      distance city.lon city.lat testCity.lon testCity.lat ≥ targetDist city) :
    selectStep distance box acc city = acc ++ [city] := by
  have h := (okToAddCity_iff distance acc city).mpr ho
  simp [selectStep, hb, h]

theorem selectStep_reject (distance : ℚ → ℚ → ℚ → ℚ → ℚ) (box : MinMaxLatLon)
    (acc : List City) (city testCity : City) (hmem : testCity ∈ acc)
    (ho : distance city.lon city.lat testCity.lon testCity.lat < targetDist city) :
    selectStep distance box acc city = acc := by
  have h : ¬ (okToAddCity distance acc city = true) := by
    rw [okToAddCity_iff]
    intro hall
    exact absurd (hall testCity hmem) (not_le.mpr ho)
  by_cases hb : inBox box city
  · simp [selectStep, hb, h]
  · simp [selectStep, hb]

theorem selectStep_outside (distance : ℚ → ℚ → ℚ → ℚ → ℚ) (box : MinMaxLatLon)
    (acc : List City) (city : City) (hb : ¬ inBox box city) :
    selectStep distance box acc city = acc := by
  simp [selectStep, hb]

/-- The loop only appends: the final list is the starting list followed by a sublist of
the candidates, each of them inside the box. -/
theorem foldl_selectStep_append (distance : ℚ → ℚ → ℚ → ℚ → ℚ) (box : MinMaxLatLon)
    (cands acc : List City) :
    ∃ added : List City, List.Sublist added cands
      ∧ (∀ c ∈ added, inBox box c)
      ∧ cands.foldl (selectStep distance box) acc = acc ++ added := by
  induction cands generalizing acc with
  | nil => exact ⟨[], List.Sublist.slnil, by simp, by simp⟩
  | cons c cs ih =>
    rcases selectStep_cases distance box acc c with ⟨h, _⟩ | ⟨h, hb, _⟩
    · obtain ⟨added, hs, hin, he⟩ := ih acc
      exact ⟨added, hs.cons c, hin, by rw [List.foldl_cons, h, he]⟩
    · obtain ⟨added, hs, hin, he⟩ := ih (acc ++ [c])
      refine ⟨c :: added, hs.cons₂ c, ?_, ?_⟩
      · intro c' hc'
        rcases List.mem_cons.mp hc' with rfl | h'
        · exact hb
        · exact hin c' h'
      · rw [List.foldl_cons, h, he]; simp

theorem foldl_selectStep_pairwise (distance : ℚ → ℚ → ℚ → ℚ → ℚ) (box : MinMaxLatLon)
    (cands acc : List City) (hacc : acc.Pairwise (separated distance)) :
    (cands.foldl (selectStep distance box) acc).Pairwise (separated distance) := by
  induction cands generalizing acc with
  | nil => simpa using hacc
  | cons c cs ih =>
    rw [List.foldl_cons]
    apply ih
    rcases selectStep_cases distance box acc c with ⟨h, _⟩ | ⟨h, _, ho⟩
    · rw [h]; exact hacc
    · rw [h, List.pairwise_append]
      refine ⟨hacc, List.pairwise_singleton _ _, ?_⟩
      intro a ha b hb
      rw [List.mem_singleton] at hb
      subst hb
      exact (okToAddCity_iff distance acc b).mp ho a ha

theorem targetDist_ge (c : City) : c.targetDistance.getD 1 ≤ targetDist c := by
  unfold targetDist
  cases h : c.targetDistance with
  | none => simp
  | some d =>
    by_cases hd : d = 0
    · simp [hd]
    · simp [hd]

theorem selectCities_pairwise (distance : ℚ → ℚ → ℚ → ℚ → ℚ) (box : MinMaxLatLon)
    (combinedCities : List City) :
    (selectCities distance box combinedCities).Pairwise (separated distance) :=
  foldl_selectStep_pairwise distance box combinedCities [] List.Pairwise.nil

theorem selectCities_sublist (distance : ℚ → ℚ → ℚ → ℚ → ℚ) (box : MinMaxLatLon)
    (combinedCities : List City) :
    List.Sublist (selectCities distance box combinedCities) combinedCities := by
  obtain ⟨added, hs, _, he⟩ := foldl_selectStep_append distance box combinedCities []
  unfold selectCities
  rw [he]
  simpa using hs

theorem selectCities_inBox (distance : ℚ → ℚ → ℚ → ℚ → ℚ) (box : MinMaxLatLon)
    (combinedCities : List City) :
    ∀ c ∈ selectCities distance box combinedCities, inBox box c := by
  obtain ⟨added, _, hin, he⟩ := foldl_selectStep_append distance box combinedCities []
  unfold selectCities
  rw [he]
  simpa using hin

/-- On one latitude the modelled distance is the absolute difference of longitudes. -/
theorem calcDistance_same_lat (x1 x2 y : ℚ) : calcDistance x1 y x2 y = |x2 - x1| := by
  simp [calcDistance, Rat.sqrt_eq]

/-- C3 (minimum separation).  In the list produced by the selection loop, for every two
cities the distance computed for the later one to the earlier one is at least the
threshold of the later one: the value of `targetDistance || 1`, which is at least its
`targetDistance`, or 1 when it has none. -/
theorem C3_minimum_separation (distance : ℚ → ℚ → ℚ → ℚ → ℚ) (box : MinMaxLatLon)
    (combinedCities : List City) :
    (selectCities distance box combinedCities).Pairwise
      (fun earlier later =>
        distance later.lon later.lat earlier.lon earlier.lat ≥ targetDist later
          ∧ distance later.lon later.lat earlier.lon earlier.lat
              ≥ later.targetDistance.getD 1) := by
  refine (selectCities_pairwise distance box combinedCities).imp ?_
  intro earlier later h
  exact ⟨h, le_trans (targetDist_ge later) h⟩

/-- C4, the claim as stated fails: the candidate with threshold 2.5 is accepted first,
the one with threshold 1 two degrees away is then accepted as well, and their distance 2
is smaller than the larger threshold 2.5. -/
theorem C4_counterexample :
    selectCities calcDistance plainsBox [cityWide, cityNear] = [cityWide, cityNear]
      ∧ calcDistance cityNear.lon cityNear.lat cityWide.lon cityWide.lat = 2
      ∧ calcDistance cityWide.lon cityWide.lat cityNear.lon cityNear.lat = 2
      ∧ max (targetDist cityWide) (targetDist cityNear) = 2.5
      ∧ ¬ (calcDistance cityNear.lon cityNear.lat cityWide.lon cityWide.lat
            ≥ max (targetDist cityWide) (targetDist cityNear)) := by
  have d1 : calcDistance cityNear.lon cityNear.lat cityWide.lon cityWide.lat = 2 := by
    simp only [cityNear, cityWide, calcDistance_same_lat]; norm_num
  have d2 : calcDistance cityWide.lon cityWide.lat cityNear.lon cityNear.lat = 2 := by
    simp only [cityNear, cityWide, calcDistance_same_lat]; norm_num
  have t1 : targetDist cityWide = 2.5 := by norm_num [targetDist, cityWide]
  have t2 : targetDist cityNear = 1 := by simp [targetDist, cityNear]
  refine ⟨?_, d1, d2, ?_, ?_⟩
  · have hb1 : inBox plainsBox cityWide := by norm_num [inBox, plainsBox, cityWide]
    have hb2 : inBox plainsBox cityNear := by norm_num [inBox, plainsBox, cityNear]
    show selectStep calcDistance plainsBox
      (selectStep calcDistance plainsBox [] cityWide) cityNear = _
    rw [selectStep_accept calcDistance plainsBox [] cityWide hb1 (by simp)]
    rw [selectStep_accept calcDistance plainsBox _ cityNear hb2]
    · rfl
    · intro t ht
      rw [List.nil_append, List.mem_singleton] at ht
      subst ht
      rw [d1, t2]; norm_num
  · rw [t1, t2]; norm_num
  · rw [d1, t1, t2]; norm_num

/-- C4, amended: when the thresholds do not decrease along the candidate list (curated
cities with threshold 1 before stations with a target distance of at least 1), no two
selected cities are closer than the larger of their two thresholds. -/
theorem C4_separation_larger_threshold (distance : ℚ → ℚ → ℚ → ℚ → ℚ) (box : MinMaxLatLon)
    (combinedCities : List City)
    (hmono : combinedCities.Pairwise (fun a b => targetDist a ≤ targetDist b)) :
    (selectCities distance box combinedCities).Pairwise
      (fun earlier later =>
        distance later.lon later.lat earlier.lon earlier.lat
          ≥ max (targetDist earlier) (targetDist later)) := by
  have hsel := selectCities_pairwise distance box combinedCities
  have hm := hmono.sublist (selectCities_sublist distance box combinedCities)
  refine (hsel.and hm).imp ?_
  intro earlier later h
  obtain ⟨h1, h2⟩ := h
  rw [max_eq_right h2]
  exact h1

/-- C4, amended, at a curated city followed by a station three degrees away. -/
theorem C4_separation_larger_threshold_witness :
    [cityPlain, cityStation].Pairwise (fun a b => targetDist a ≤ targetDist b)
      ∧ (selectCities calcDistance plainsBox [cityPlain, cityStation]).Pairwise
          (fun earlier later =>
            calcDistance later.lon later.lat earlier.lon earlier.lat
              ≥ max (targetDist earlier) (targetDist later)) :=
  have h : [cityPlain, cityStation].Pairwise (fun a b => targetDist a ≤ targetDist b) := by
    norm_num [targetDist, cityPlain, cityStation]
  ⟨h, C4_separation_larger_threshold calcDistance plainsBox [cityPlain, cityStation] h⟩

/-- C5 (bounding-box filter).  Every selected city satisfies `minLat < lat < maxLat` and
`minLon < lon < maxLon - 1`, and the selected list is a sublist of the candidate list:
the same cities in the same relative order. -/
theorem C5_box_filter_sublist (distance : ℚ → ℚ → ℚ → ℚ → ℚ) (box : MinMaxLatLon)
    (combinedCities : List City) :
    (∀ c ∈ selectCities distance box combinedCities,
        box.minLat < c.lat ∧ c.lat < box.maxLat
          ∧ box.minLon < c.lon ∧ c.lon < box.maxLon - 1)
      ∧ List.Sublist (selectCities distance box combinedCities) combinedCities :=
  ⟨fun c hc => selectCities_inBox distance box combinedCities c hc,
   selectCities_sublist distance box combinedCities⟩

/-! ### Name formatting -/

theorem takeWhile_clean (s : List Char) :
    ∀ c ∈ s.takeWhile (fun c => decide (c ∉ punctuation)), c ∉ punctuation := by
  intro c hc
  have h := List.mem_takeWhile_imp hc
  simpa using h

theorem clean_isPrefix_takeWhile (q s : List Char) (hq : q <+: s)
    (hclean : ∀ c ∈ q, c ∉ punctuation) :
    q <+: s.takeWhile (fun c => decide (c ∉ punctuation)) := by
  obtain ⟨t, rfl⟩ := hq
  have h : ∀ a ∈ q, (fun c => decide (c ∉ punctuation)) a = true := by
    intro a ha
    simpa using hclean a ha
  rw [List.takeWhile_append_of_pos h]
  exact List.prefix_append _ _

theorem takeWhile_isLongestClean (s : List Char) :
    IsLongestClean (s.takeWhile (fun c => decide (c ∉ punctuation))) s :=
  ⟨ List.takeWhile_prefix _, takeWhile_clean s,
    fun q hq hclean => (clean_isPrefix_takeWhile q s hq hclean).length_le⟩

theorem isLongestClean_unique (p s : List Char) (h : IsLongestClean p s) :
    p = s.takeWhile (fun c => decide (c ∉ punctuation)) := by
  obtain ⟨hp, hclean, hlong⟩ := h
  have h1 := clean_isPrefix_takeWhile p s hp hclean
  have h2 := hlong _ ( List.takeWhile_prefix _) (takeWhile_clean s)
  exact h1.eq_of_length (le_antisymm h1.length_le h2)

theorem formatCity_isPrefix (s : List Char) : formatCity s <+: s :=
  ( List.take_prefix _ _).trans ( List.takeWhile_prefix _)

theorem formatCity_length_le (s : List Char) : (formatCity s).length ≤ 12 :=
  List.length_take_le _ _

theorem formatCity_clean (s : List Char) : ∀ c ∈ formatCity s, c ∉ punctuation :=
  fun c hc => takeWhile_clean s c (List.mem_of_mem_take hc)

theorem formatCity_of_clean (s : List Char) (hclean : ∀ c ∈ s, c ∉ punctuation) :
    formatCity s = s.take 12 := by
  have h : s.takeWhile (fun c => decide (c ∉ punctuation)) = s := by
    rw [List.takeWhile_eq_self_iff]
    intro c hc
    simpa using hclean c hc
  rw [formatCity, h]

/-- C6 (`formatCity`).  For every string `s` the result is the first 12 characters of
the longest beginning of `s` free of `-`, `;`, `/`, backslash and `,` (such a beginning
exists and is unique); hence it is a beginning of `s`, has at most 12 characters and
holds none of those characters; "Winston-Salem" gives "Winston", "Saint Paul/Mpls" gives
"Saint Paul", and a 20-character string without those characters gives exactly its
first 12 characters. -/
theorem C6_formatCity :
    (∀ s : List Char, (∃ p, IsLongestClean p s)
        ∧ ∀ p, IsLongestClean p s → formatCity s = p.take 12)
    ∧ (∀ s : List Char, formatCity s <+: s ∧ (formatCity s).length ≤ 12
        ∧ ∀ c ∈ formatCity s, c ∉ punctuation)
    ∧ formatCity "Winston-Salem".toList = "Winston".toList
    ∧ formatCity "Saint Paul/Mpls".toList = "Saint Paul".toList
    ∧ (∀ s : List Char, s.length = 20 → (∀ c ∈ s, c ∉ punctuation) →
        formatCity s = s.take 12 ∧ (formatCity s).length = 12) := by
  refine ⟨?_, ?_, by decide, by decide, ?_⟩
  · intro s
    refine ⟨⟨_, takeWhile_isLongestClean s⟩, ?_⟩
    intro p hp
    rw [isLongestClean_unique p s hp, formatCity]
  · intro s
    exact ⟨formatCity_isPrefix s, formatCity_length_le s, formatCity_clean s⟩
  · intro s hlen hclean
    have h := formatCity_of_clean s hclean
    refine ⟨h, ?_⟩
    rw [h, List.length_take, hlen]
    rfl

/-! ### Placement of a city -/

theorem getXYForCity_AK (city : City) (maxLat minLon : ℚ) :
    getXYForCity city maxLat minLon "AK"
      = Except.error (JsError.notAFunction "getXYForCityAK") := by
  have h := callThis_static "getXYForCityAK" (by decide) (getXYForCityAK city maxLat minLon)
  simp only [getXYForCity, if_true, h]
  rfl

theorem getXYForCity_HI (city : City) (maxLat minLon : ℚ) :
    getXYForCity city maxLat minLon "HI"
      = Except.error (JsError.notAFunction "getXYForCityHI") := by
  have h := callThis_static "getXYForCityHI" (by decide) (getXYForCityHI city maxLat minLon)
  have hne : ¬ ("HI" = "AK") := by decide
  simp only [getXYForCity, if_true, h, if_neg hne]
  rfl

theorem getXYForCity_default (city : City) (maxLat minLon : ℚ) (state : String)
    (hAK : state ≠ "AK") (hHI : state ≠ "HI") :
    getXYForCity city maxLat minLon state
      = Except.ok (getXYForCityBody city maxLat minLon) := by
  simp only [getXYForCity, if_neg hAK, if_neg hHI]
  rfl

theorem getXYForCityAK_inWindow (city : City) (maxLat minLon : ℚ) :
    (getXYForCityAK city maxLat minLon).inWindow := by
  simp only [getXYForCityAK, XY.inWindow]
  refine ⟨?_, ?_, ?_, ?_⟩ <;> split_ifs <;> norm_num at * <;> linarith

theorem getXYForCityHI_inWindow (city : City) (maxLat minLon : ℚ) :
    (getXYForCityHI city maxLat minLon).inWindow := by
  simp only [getXYForCityHI, XY.inWindow]
  refine ⟨?_, ?_, ?_, ?_⟩ <;> split_ifs <;> norm_num at * <;> linarith

theorem getXYForCityBody_inWindow (city : City) (maxLat minLon : ℚ) :
    (getXYForCityBody city maxLat minLon).inWindow := by
  simp only [getXYForCityBody, XY.inWindow]
  refine ⟨?_, ?_, ?_, ?_⟩ <;> split_ifs <;> norm_num at * <;> linarith

theorem getXYForCityAK_unchanged (city : City) (maxLat minLon : ℚ)
    (hx0 : 40 ≤ (city.lon - minLon) * 37) (hx1 : (city.lon - minLon) * 37 ≤ 580)
    (hy0 : 30 ≤ (maxLat - city.lat) * 70) (hy1 : (maxLat - city.lat) * 70 ≤ 282) :
    getXYForCityAK city maxLat minLon
      = { x := (city.lon - minLon) * 37, y := (maxLat - city.lat) * 70 } := by
  simp only [getXYForCityAK, if_neg (not_lt.mpr hx0), if_neg (not_lt.mpr hx1),
    if_neg (not_lt.mpr hy0), if_neg (not_lt.mpr hy1)]

theorem getXYForCityHI_unchanged (city : City) (maxLat minLon : ℚ)
    (hx0 : 40 ≤ (city.lon - minLon) * 57) (hx1 : (city.lon - minLon) * 57 ≤ 580)
    (hy0 : 30 ≤ (maxLat - city.lat) * 70) (hy1 : (maxLat - city.lat) * 70 ≤ 282) :
    getXYForCityHI city maxLat minLon
      = { x := (city.lon - minLon) * 57, y := (maxLat - city.lat) * 70 } := by
  simp only [getXYForCityHI, if_neg (not_lt.mpr hx0), if_neg (not_lt.mpr hx1),
    if_neg (not_lt.mpr hy0), if_neg (not_lt.mpr hy1)]

theorem getXYForCityBody_unchanged (city : City) (maxLat minLon : ℚ)
    (hx0 : 40 ≤ (city.lon - minLon) * 57) (hx1 : (city.lon - minLon) * 57 ≤ 580)
    (hy0 : 30 ≤ (maxLat - city.lat) * 70) (hy1 : (maxLat - city.lat) * 70 ≤ 282) :
    getXYForCityBody city maxLat minLon
      = { x := (city.lon - minLon) * 57, y := (maxLat - city.lat) * 70 } := by
  simp only [getXYForCityBody, if_neg (not_lt.mpr hx0), if_neg (not_lt.mpr hx1),
    if_neg (not_lt.mpr hy0), if_neg (not_lt.mpr hy1)]

/-- C7 (Alaska placement scale).  For the state `'AK'` the method `getXYForCity` does not
return the result of `getXYForCityAK`: the call of the static method through `this`
raises a `TypeError` (and so does the `'HI'` line); the line has no `return` either, so
the only value the method can return is the one of its body, which uses the scale 57.
At Anchorage with `MaxLatitude = 63`, `MinLongitude = -155` the Alaska variant gives
`x = 188.7` while the body gives `x = 290.7`. -/
theorem C7_getXYForCity_alaska_scale :
    (∀ (city : City) (maxLat minLon : ℚ),
        getXYForCity city maxLat minLon "AK"
          = Except.error (JsError.notAFunction "getXYForCityAK"))
    ∧ (∀ (city : City) (maxLat minLon : ℚ),
        getXYForCity city maxLat minLon "HI"
          = Except.error (JsError.notAFunction "getXYForCityHI"))
    ∧ (∀ (city : City) (maxLat minLon : ℚ) (state : String) (p : XY),
        getXYForCity city maxLat minLon state = Except.ok p →
          p = getXYForCityBody city maxLat minLon)
    ∧ getXYForCityAK cityAnchorage 63 (-155) = { x := 188.7, y := 126 }
    ∧ getXYForCityBody cityAnchorage 63 (-155) = { x := 290.7, y := 126 } := by
  refine ⟨getXYForCity_AK, getXYForCity_HI, ?_, ?_, ?_⟩
  · intro city maxLat minLon state p h
    by_cases hAK : state = "AK"
    · subst hAK; rw [getXYForCity_AK] at h; cases h
    · by_cases hHI : state = "HI"
      · subst hHI; rw [getXYForCity_HI] at h; cases h
      · rw [getXYForCity_default city maxLat minLon state hAK hHI] at h
        cases h; rfl
  · norm_num [getXYForCityAK, cityAnchorage]
  · norm_num [getXYForCityBody, cityAnchorage]

/-- C8 (label window).  The three placement bodies return a point with `40 ≤ x ≤ 580`
and `30 ≤ y ≤ 282`, and return the unclamped values unchanged when these lie in the
window; for a state other than `'AK'` and `'HI'` the method `getXYForCity` returns the
point of its body.  For the states `'AK'` and `'HI'` the method returns no point: it
raises a `TypeError`. -/
theorem C8_city_label_window :
    (∀ (city : City) (maxLat minLon : ℚ),
        getXYForCity city maxLat minLon "AK"
          = Except.error (JsError.notAFunction "getXYForCityAK"))
    ∧ (∀ (city : City) (maxLat minLon : ℚ),
        getXYForCity city maxLat minLon "HI"
          = Except.error (JsError.notAFunction "getXYForCityHI"))
    ∧ (∀ (city : City) (maxLat minLon : ℚ) (state : String),
        state ≠ "AK" → state ≠ "HI" →
        ∃ p, getXYForCity city maxLat minLon state = Except.ok p ∧ p.inWindow
          ∧ (40 ≤ (city.lon - minLon) * 57 → (city.lon - minLon) * 57 ≤ 580 →
              30 ≤ (maxLat - city.lat) * 70 → (maxLat - city.lat) * 70 ≤ 282 →
              p = { x := (city.lon - minLon) * 57, y := (maxLat - city.lat) * 70 }))
    ∧ (∀ (city : City) (maxLat minLon : ℚ),
        (getXYForCityAK city maxLat minLon).inWindow
          ∧ (40 ≤ (city.lon - minLon) * 37 → (city.lon - minLon) * 37 ≤ 580 →
              30 ≤ (maxLat - city.lat) * 70 → (maxLat - city.lat) * 70 ≤ 282 →
              getXYForCityAK city maxLat minLon
                = { x := (city.lon - minLon) * 37, y := (maxLat - city.lat) * 70 }))
    ∧ (∀ (city : City) (maxLat minLon : ℚ),
        (getXYForCityHI city maxLat minLon).inWindow
          ∧ (40 ≤ (city.lon - minLon) * 57 → (city.lon - minLon) * 57 ≤ 580 →
              30 ≤ (maxLat - city.lat) * 70 → (maxLat - city.lat) * 70 ≤ 282 →
              getXYForCityHI city maxLat minLon
                = { x := (city.lon - minLon) * 57, y := (maxLat - city.lat) * 70 })) := by
  refine ⟨getXYForCity_AK, getXYForCity_HI, ?_, ?_, ?_⟩
  · intro city maxLat minLon state hAK hHI
    exact ⟨_, getXYForCity_default city maxLat minLon state hAK hHI,
      getXYForCityBody_inWindow city maxLat minLon,
      getXYForCityBody_unchanged city maxLat minLon⟩
  · intro city maxLat minLon
    exact ⟨getXYForCityAK_inWindow city maxLat minLon,
      getXYForCityAK_unchanged city maxLat minLon⟩
  · intro city maxLat minLon
    exact ⟨getXYForCityHI_inWindow city maxLat minLon,
      getXYForCityHI_unchanged city maxLat minLon⟩

/-! ### The parametric form of the projection -/

/-- The two-branch test of the source is the clamp to `[0, hi]` when `0 ≤ hi`. -/
theorem ite_eq_clamp (v hi : ℚ) (h : 0 ≤ hi) :
    (if v > hi then hi else if v < 0 then 0 else v) = clamp v 0 hi := by
  unfold clamp
  split_ifs with h1 h2
  · rw [min_eq_right (le_of_lt h1), max_eq_right h]
  · rw [min_eq_left (not_lt.mp h1), max_eq_left (le_of_lt h2)]
  · rw [min_eq_left (not_lt.mp h1), max_eq_right (not_lt.mp h2)]

theorem getXYFromLatitudeLongitude_eq_spec (lat lon ox oy : ℚ) (state : String)
    (hAK : state ≠ "AK") (hHI : state ≠ "HI")
    (hx : 2 * ox ≤ 2550) (hy : 2 * oy ≤ 1600) :
    getXYFromLatitudeLongitude lat lon ox oy state
      = Except.ok (specToPixel defaultConstants lat lon ox oy) := by
  rw [getXYFromLatitudeLongitude_default lat lon ox oy state hAK hHI]
  have ex : (lon + 127.5) * 41.775 - ox = (lon - -127.5) * 41.775 - ox := by ring
  have wx : (2550 : ℚ) - ox * 2 = 2550 - 2 * ox := by ring
  have wy : (1600 : ℚ) - oy * 2 = 1600 - 2 * oy := by ring
  simp only [specToPixel, defaultConstants, ex, wx, wy]
  rw [ite_eq_clamp _ _ (by linarith), ite_eq_clamp _ _ (by linarith)]

theorem getXYFromLatitudeLongitudeAK_eq_spec (lat lon ox oy : ℚ)
    (hx : 2 * ox ≤ 1200) (hy : 2 * oy ≤ 1142) :
    getXYFromLatitudeLongitudeAK lat lon ox oy = specToPixel alaskaConstants lat lon ox oy := by
  have ex : ((-175.0 - lon) * 25.0) * -1 - ox = (lon - -175) * 25 - ox := by ring
  have ey : (73.0 - lat) * 56 - oy = (73 - lat) * 56 - oy := by norm_num
  have wx : (1200 : ℚ) - ox * 2 = 1200 - 2 * ox := by ring
  have wy : (1142 : ℚ) - oy * 2 = 1142 - 2 * oy := by ring
  simp only [getXYFromLatitudeLongitudeAK, specToPixel, alaskaConstants, ex, ey, wx, wy]
  rw [ite_eq_clamp _ _ (by linarith), ite_eq_clamp _ _ (by linarith)]

theorem getXYFromLatitudeLongitudeHI_eq_spec (lat lon ox oy : ℚ)
    (hx : 2 * ox ≤ 600) (hy : 2 * oy ≤ 571) :
    getXYFromLatitudeLongitudeHI lat lon ox oy = specToPixel hawaiiConstants lat lon ox oy := by
  have ex : ((-164.5 - lon) * 41.775) * -1 - ox = (lon - -164.5) * 41.775 - ox := by ring
  have wx : (600 : ℚ) - ox * 2 = 600 - 2 * ox := by ring
  have wy : (571 : ℚ) - oy * 2 = 571 - 2 * oy := by ring
  simp only [getXYFromLatitudeLongitudeHI, specToPixel, hawaiiConstants, ex, wx, wy]
  rw [ite_eq_clamp _ _ (by linarith), ite_eq_clamp _ _ (by linarith)]

/-- C9 (region dispatch and parametric form).  With `2*OffsetX ≤ ImgWidth` and
`2*OffsetY ≤ ImgHeight`, each projection body computes the parametric clamp formula with
its own constant bundle, and for a state other than `'AK'` and `'HI'` the method
`getXYFromLatitudeLongitude` returns that value with the default bundle.  For the
states `'AK'` and `'HI'` neither `getXYFromLatitudeLongitude` nor
`getMinMaxLatitudeLongitude` yields the result of its variant: each raises a
`TypeError`, the variants being static and called through `this`. -/
theorem C9_region_dispatch :
    (∀ lat lon ox oy : ℚ, getXYFromLatitudeLongitude lat lon ox oy "AK"
        = Except.error (JsError.notAFunction "getXYFromLatitudeLongitudeAK"))
    ∧ (∀ lat lon ox oy : ℚ, getXYFromLatitudeLongitude lat lon ox oy "HI"
        = Except.error (JsError.notAFunction "getXYFromLatitudeLongitudeHI"))
    ∧ (∀ X Y ox oy : ℚ, getMinMaxLatitudeLongitude X Y ox oy "AK"
        = Except.error (JsError.notAFunction "getMinMaxLatitudeLongitudeAK"))
    ∧ (∀ X Y ox oy : ℚ, getMinMaxLatitudeLongitude X Y ox oy "HI"
        = Except.error (JsError.notAFunction "getMinMaxLatitudeLongitudeHI"))
    ∧ (∀ (lat lon ox oy : ℚ) (state : String), state ≠ "AK" → state ≠ "HI" →
        2 * ox ≤ 2550 → 2 * oy ≤ 1600 →
        getXYFromLatitudeLongitude lat lon ox oy state
          = Except.ok (specToPixel defaultConstants lat lon ox oy))
    ∧ (∀ lat lon ox oy : ℚ, 2 * ox ≤ 1200 → 2 * oy ≤ 1142 →
        getXYFromLatitudeLongitudeAK lat lon ox oy
          = specToPixel alaskaConstants lat lon ox oy)
    ∧ (∀ lat lon ox oy : ℚ, 2 * ox ≤ 600 → 2 * oy ≤ 571 →
        getXYFromLatitudeLongitudeHI lat lon ox oy
          = specToPixel hawaiiConstants lat lon ox oy) :=
  ⟨getXYFromLatitudeLongitude_AK, getXYFromLatitudeLongitude_HI,
   getMinMaxLatitudeLongitude_AK, getMinMaxLatitudeLongitude_HI,
   getXYFromLatitudeLongitude_eq_spec, getXYFromLatitudeLongitudeAK_eq_spec,
   getXYFromLatitudeLongitudeHI_eq_spec⟩

/-! ### The three projections at one point -/

theorem getXYFromLatitudeLongitude_body (lat lon ox oy : ℚ) (state : String)
    (hAK : state ≠ "AK") (hHI : state ≠ "HI") :
    getXYFromLatitudeLongitude lat lon ox oy state
      = Except.ok (getXYFromLatitudeLongitudeBody lat lon ox oy) := by
  rw [getXYFromLatitudeLongitude, if_neg hAK, if_neg hHI]

/-- A clamped value strictly inside `(0, hi)` is the unclamped value. -/
theorem ite_interior (v hi : ℚ)
    (h0 : 0 < (if v > hi then hi else if v < 0 then 0 else v))
    (h1 : (if v > hi then hi else if v < 0 then 0 else v) < hi) :
    (if v > hi then hi else if v < 0 then 0 else v) = v ∧ 0 < v ∧ v < hi := by
  split_ifs at h0 h1 ⊢ with a b
  · exact absurd h1 (lt_irrefl _)
  · exact absurd h0 (lt_irrefl _)
  · exact ⟨rfl, h0, h1⟩

theorem alaska_y_interior (lat lon : ℚ)
    (h0 : 0 < (getXYFromLatitudeLongitudeAK lat lon 240 117).y)
    (h1 : (getXYFromLatitudeLongitudeAK lat lon 240 117).y < 908) :
    (getXYFromLatitudeLongitudeBody lat lon 240 117).y = 0
      ∧ (getXYFromLatitudeLongitudeHI lat lon 240 117).y = 0 := by
  have hw : (1142 : ℚ) - 117 * 2 = 908 := by norm_num
  simp only [getXYFromLatitudeLongitudeAK, hw] at h0 h1
  obtain ⟨-, k0, k1⟩ := ite_interior _ _ h0 h1
  norm_num at k0 k1
  simp only [getXYFromLatitudeLongitudeBody, getXYFromLatitudeLongitudeHI]
  constructor <;> split_ifs <;> norm_num at * <;> linarith

theorem alaska_x_interior (lat lon : ℚ)
    (h0 : 0 < (getXYFromLatitudeLongitudeAK lat lon 240 117).x)
    (h1 : (getXYFromLatitudeLongitudeAK lat lon 240 117).x < 720) :
    (getXYFromLatitudeLongitudeBody lat lon 240 117).x = 0
      ∧ (getXYFromLatitudeLongitudeHI lat lon 240 117).x
          ≠ (getXYFromLatitudeLongitudeAK lat lon 240 117).x := by
  have hw : (1200 : ℚ) - 240 * 2 = 720 := by norm_num
  simp only [getXYFromLatitudeLongitudeAK, hw] at h0 h1 ⊢
  obtain ⟨ke, k0, k1⟩ := ite_interior _ _ h0 h1
  rw [ke]
  norm_num at k0 k1
  simp only [getXYFromLatitudeLongitudeBody, getXYFromLatitudeLongitudeHI, ne_eq]
  constructor
  · split_ifs <;> norm_num at * <;> linarith
  · intro heq
    split_ifs at heq <;> norm_num at * <;> linarith

theorem hawaii_y_interior (lat lon : ℚ)
    (h0 : 0 < (getXYFromLatitudeLongitudeHI lat lon 240 117).y)
    (h1 : (getXYFromLatitudeLongitudeHI lat lon 240 117).y < 337) :
    (getXYFromLatitudeLongitudeBody lat lon 240 117).y = 1366
      ∧ (getXYFromLatitudeLongitudeAK lat lon 240 117).y = 908 := by
  have hw : (571 : ℚ) - 117 * 2 = 337 := by norm_num
  simp only [getXYFromLatitudeLongitudeHI, hw] at h0 h1
  obtain ⟨-, k0, k1⟩ := ite_interior _ _ h0 h1
  norm_num at k0 k1
  simp only [getXYFromLatitudeLongitudeBody, getXYFromLatitudeLongitudeAK]
  constructor <;> split_ifs <;> norm_num at * <;> linarith

theorem hawaii_x_interior (lat lon : ℚ)
    (h0 : 0 < (getXYFromLatitudeLongitudeHI lat lon 240 117).x)
    (h1 : (getXYFromLatitudeLongitudeHI lat lon 240 117).x < 120) :
    (getXYFromLatitudeLongitudeBody lat lon 240 117).x = 0
      ∧ (getXYFromLatitudeLongitudeAK lat lon 240 117).x
          ≠ (getXYFromLatitudeLongitudeHI lat lon 240 117).x := by
  have hw : (600 : ℚ) - 240 * 2 = 120 := by norm_num
  simp only [getXYFromLatitudeLongitudeHI, hw] at h0 h1 ⊢
  obtain ⟨ke, k0, k1⟩ := ite_interior _ _ h0 h1
  rw [ke]
  norm_num at k0 k1
  simp only [getXYFromLatitudeLongitudeBody, getXYFromLatitudeLongitudeAK, ne_eq]
  constructor
  · split_ifs <;> norm_num at * <;> linarith
  · intro heq
    split_ifs at heq <;> norm_num at * <;> linarith

/-- A point of `[0, w] × [0, h]` that is not at a corner is strictly inside on one axis. -/
theorem interior_of_not_atCorner (p : XY) (w h : ℚ) (hw : p.within w h)
    (hc : ¬ p.atCorner w h) :
    (0 < p.x ∧ p.x < w) ∨ (0 < p.y ∧ p.y < h) := by
  obtain ⟨hx0, hx1, hy0, hy1⟩ := hw
  by_cases hx : p.x = 0 ∨ p.x = w
  · by_cases hy : p.y = 0 ∨ p.y = h
    · exact absurd ⟨hx, hy⟩ hc
    · right
      rw [not_or] at hy
      exact ⟨lt_of_le_of_ne hy0 (Ne.symm hy.1), lt_of_le_of_ne hy1 hy.2⟩
  · left
    rw [not_or] at hx
    exact ⟨lt_of_le_of_ne hx0 (Ne.symm hx.1), lt_of_le_of_ne hx1 hx.2⟩

theorem alaska_differs (lat lon : ℚ)
    (hc : ¬ (getXYFromLatitudeLongitudeAK lat lon 240 117).atCorner 720 908) :
    getXYFromLatitudeLongitudeBody lat lon 240 117 ≠ getXYFromLatitudeLongitudeAK lat lon 240 117
      ∧ getXYFromLatitudeLongitudeHI lat lon 240 117
          ≠ getXYFromLatitudeLongitudeAK lat lon 240 117 := by
  have hw : (getXYFromLatitudeLongitudeAK lat lon 240 117).within 720 908 := by
    have h := getXYFromLatitudeLongitudeAK_within lat lon
    norm_num at h
    exact h
  rcases interior_of_not_atCorner _ _ _ hw hc with ⟨h0, h1⟩ | ⟨h0, h1⟩
  · obtain ⟨hd, hh⟩ := alaska_x_interior lat lon h0 h1
    refine ⟨fun e => ?_, fun e => hh (congrArg XY.x e)⟩
    have e' := congrArg XY.x e
    rw [hd] at e'
    rw [← e'] at h0
    exact lt_irrefl _ h0
  · obtain ⟨hd, hh⟩ := alaska_y_interior lat lon h0 h1
    refine ⟨fun e => ?_, fun e => ?_⟩
    · have e' := congrArg XY.y e
      rw [hd] at e'
      rw [← e'] at h0
      exact lt_irrefl _ h0
    · have e' := congrArg XY.y e
      rw [hh] at e'
      rw [← e'] at h0
      exact lt_irrefl _ h0

theorem hawaii_differs (lat lon : ℚ)
    (hc : ¬ (getXYFromLatitudeLongitudeHI lat lon 240 117).atCorner 120 337) :
    getXYFromLatitudeLongitudeBody lat lon 240 117 ≠ getXYFromLatitudeLongitudeHI lat lon 240 117
      ∧ getXYFromLatitudeLongitudeAK lat lon 240 117
          ≠ getXYFromLatitudeLongitudeHI lat lon 240 117 := by
  have hw : (getXYFromLatitudeLongitudeHI lat lon 240 117).within 120 337 := by
    have h := getXYFromLatitudeLongitudeHI_within lat lon
    norm_num at h
    exact h
  rcases interior_of_not_atCorner _ _ _ hw hc with ⟨h0, h1⟩ | ⟨h0, h1⟩
  · obtain ⟨hd, hh⟩ := hawaii_x_interior lat lon h0 h1
    refine ⟨fun e => ?_, fun e => hh (congrArg XY.x e)⟩
    have e' := congrArg XY.x e
    rw [hd] at e'
    rw [← e'] at h0
    exact lt_irrefl _ h0
  · obtain ⟨hd, hh⟩ := hawaii_y_interior lat lon h0 h1
    refine ⟨fun e => ?_, fun e => ?_⟩
    · have e' := congrArg XY.y e
      rw [hd] at e'
      rw [← e'] at h1
      norm_num at h1
    · have e' := congrArg XY.y e
      rw [hh] at e'
      rw [← e'] at h1
      norm_num at h1

/-- C10, the claim as stated fails: at latitude 75, longitude -170 and offset 240 x 117
the default, the Alaska and the Hawaii projection all saturate to the same pixel (0, 0). -/
theorem C10_counterexample :
    getXYFromLatitudeLongitude 75 (-170) 240 117 "WA" = Except.ok { x := 0, y := 0 }
      ∧ getXYFromLatitudeLongitudeAK 75 (-170) 240 117 = { x := 0, y := 0 }
      ∧ getXYFromLatitudeLongitudeHI 75 (-170) 240 117 = { x := 0, y := 0 } := by
  refine ⟨?_, ?_, ?_⟩
  · rw [getXYFromLatitudeLongitude_body _ _ _ _ _ (by decide) (by decide)]
    norm_num [getXYFromLatitudeLongitudeBody]
  · norm_num [getXYFromLatitudeLongitudeAK]
  · norm_num [getXYFromLatitudeLongitudeHI]

/-- C10, amended: for every GeoPoint, with the offset 240 x 117, two regions' pixel
results coincide only at a saturated corner: when the Alaska result is not at a corner
of its range `[0, 720] × [0, 908]` it differs from the default and from the Hawaii
result, and when the Hawaii result is not at a corner of `[0, 120] × [0, 337]` it
differs from the default and from the Alaska result. -/
theorem C10_region_results_differ (lat lon : ℚ) (state : String)
    (hAK : state ≠ "AK") (hHI : state ≠ "HI") :
    ∃ d, getXYFromLatitudeLongitude lat lon 240 117 state = Except.ok d
      ∧ (¬ (getXYFromLatitudeLongitudeAK lat lon 240 117).atCorner 720 908 →
          d ≠ getXYFromLatitudeLongitudeAK lat lon 240 117
            ∧ getXYFromLatitudeLongitudeHI lat lon 240 117
                ≠ getXYFromLatitudeLongitudeAK lat lon 240 117)
      ∧ (¬ (getXYFromLatitudeLongitudeHI lat lon 240 117).atCorner 120 337 →
          d ≠ getXYFromLatitudeLongitudeHI lat lon 240 117
            ∧ getXYFromLatitudeLongitudeAK lat lon 240 117
                ≠ getXYFromLatitudeLongitudeHI lat lon 240 117) :=
  ⟨_, getXYFromLatitudeLongitude_body lat lon 240 117 state hAK hHI,
    alaska_differs lat lon, hawaii_differs lat lon⟩

/-- C10, amended, at Anchorage (61.2, -149.9), seen from a state of the default region:
the Alaska result (387.5, 543.8) is not at a corner. -/
theorem C10_region_results_differ_witness :
    ("WA" ≠ "AK" ∧ "WA" ≠ "HI"
      ∧ ¬ (getXYFromLatitudeLongitudeAK 61.2 (-149.9) 240 117).atCorner 720 908)
    ∧ ∃ d, getXYFromLatitudeLongitude 61.2 (-149.9) 240 117 "WA" = Except.ok d
      ∧ (¬ (getXYFromLatitudeLongitudeAK 61.2 (-149.9) 240 117).atCorner 720 908 →
          d ≠ getXYFromLatitudeLongitudeAK 61.2 (-149.9) 240 117
            ∧ getXYFromLatitudeLongitudeHI 61.2 (-149.9) 240 117
                ≠ getXYFromLatitudeLongitudeAK 61.2 (-149.9) 240 117)
      ∧ (¬ (getXYFromLatitudeLongitudeHI 61.2 (-149.9) 240 117).atCorner 120 337 →
          d ≠ getXYFromLatitudeLongitudeHI 61.2 (-149.9) 240 117
            ∧ getXYFromLatitudeLongitudeAK 61.2 (-149.9) 240 117
                ≠ getXYFromLatitudeLongitudeHI 61.2 (-149.9) 240 117) :=
  ⟨⟨by decide, by decide, by norm_num [getXYFromLatitudeLongitudeAK, XY.atCorner]⟩,
   C10_region_results_differ 61.2 (-149.9) "WA" (by decide) (by decide)⟩

/-! ### Priority of the curated cities and order dependence -/

theorem selectCities_append (distance : ℚ → ℚ → ℚ → ℚ → ℚ) (box : MinMaxLatLon)
    (front back : List City) :
    ∃ added : List City, List.Sublist added back
      ∧ (∀ c ∈ added, inBox box c)
      ∧ selectCities distance box (front ++ back)
          = selectCities distance box front ++ added := by
  unfold selectCities
  rw [List.foldl_append]
  exact foldl_selectStep_append distance box back _

/-- C11 (curated cities first).  Running the selection on the curated list followed by
the stations gives the result of the selection on the curated list alone, followed by
stations only (a sublist of the station list); so every curated city selected on its
own stays selected, at the same place. -/
theorem C11_curated_priority (distance : ℚ → ℚ → ℚ → ℚ → ℚ) (box : MinMaxLatLon)
    (RegionalCities StationInfo : List City) (targetDistance : ℚ) :
    ∃ stations : List City,
      List.Sublist stations (stationInfoArray StationInfo targetDistance)
      ∧ selectCities distance box (combinedCities RegionalCities StationInfo targetDistance)
          = selectCities distance box RegionalCities ++ stations
      ∧ selectCities distance box RegionalCities
          <+: selectCities distance box (combinedCities RegionalCities StationInfo targetDistance)
      ∧ ∀ c ∈ selectCities distance box RegionalCities,
          c ∈ selectCities distance box (combinedCities RegionalCities StationInfo targetDistance) := by
  obtain ⟨added, hs, _, he⟩ :=
    selectCities_append distance box RegionalCities (stationInfoArray StationInfo targetDistance)
  refine ⟨added, hs, he, ?_, ?_⟩
  · unfold combinedCities
    rw [he]
    exact List.prefix_append _ _
  · intro c hc
    unfold combinedCities
    rw [he]
    exact List.mem_append_left _ hc

theorem calcDistance_plain_close :
    calcDistance cityClose.lon cityClose.lat cityPlain.lon cityPlain.lat = 1 / 2
      ∧ calcDistance cityPlain.lon cityPlain.lat cityClose.lon cityClose.lat = 1 / 2 := by
  constructor <;> (simp only [cityClose, cityPlain, calcDistance_same_lat]; norm_num)

/-- C12 (order dependence).  The selection is a function of the candidate list and the
box, and there are a box and two candidates inside it, each selected when alone, such
that the list `[a, b]` keeps only `a` and the list `[b, a]` keeps only `b`. -/
theorem C12_order_dependence :
    (∀ (box box2 : MinMaxLatLon) (l l2 : List City), box = box2 → l = l2 →
        selectCities calcDistance box l = selectCities calcDistance box2 l2)
    ∧ ∃ (box : MinMaxLatLon) (a b : City),
        inBox box a ∧ inBox box b ∧ a ≠ b
        ∧ selectCities calcDistance box [a] = [a]
        ∧ selectCities calcDistance box [b] = [b]
        ∧ selectCities calcDistance box [a, b] = [a]
        ∧ selectCities calcDistance box [b, a] = [b] := by
  refine ⟨fun _ _ _ _ h1 h2 => by rw [h1, h2], plainsBox, cityPlain, cityClose, ?_⟩
  have hb1 : inBox plainsBox cityPlain := by norm_num [inBox, plainsBox, cityPlain]
  have hb2 : inBox plainsBox cityClose := by norm_num [inBox, plainsBox, cityClose]
  have t1 : targetDist cityPlain = 1 := by simp [targetDist, cityPlain]
  have t2 : targetDist cityClose = 1 := by simp [targetDist, cityClose]
  obtain ⟨d1, d2⟩ := calcDistance_plain_close
  have s1 : selectCities calcDistance plainsBox [cityPlain] = [cityPlain] := by
    show selectStep calcDistance plainsBox [] cityPlain = _
    rw [selectStep_accept calcDistance plainsBox [] cityPlain hb1 (by simp)]
    rfl
  have s2 : selectCities calcDistance plainsBox [cityClose] = [cityClose] := by
    show selectStep calcDistance plainsBox [] cityClose = _
    rw [selectStep_accept calcDistance plainsBox [] cityClose hb2 (by simp)]
    rfl
  refine ⟨hb1, hb2, by decide, s1, s2, ?_, ?_⟩
  · show selectStep calcDistance plainsBox
      (selectCities calcDistance plainsBox [cityPlain]) cityClose = _
    rw [s1]
    exact selectStep_reject calcDistance plainsBox _ cityClose cityPlain
      (List.mem_singleton.mpr rfl) (by rw [d1, t2]; norm_num)
  · show selectStep calcDistance plainsBox
      (selectCities calcDistance plainsBox [cityClose]) cityPlain = _
    rw [s2]
    exact selectStep_reject calcDistance plainsBox _ cityPlain cityClose
      (List.mem_singleton.mpr rfl) (by rw [d2, t1]; norm_num)

/-! ### Exact acceptance -/

theorem selectCities_split (distance : ℚ → ℚ → ℚ → ℚ → ℚ) (box : MinMaxLatLon)
    (pre post : List City) (c : City) :
    ∃ added : List City, List.Sublist added post
      ∧ selectCities distance box (pre ++ c :: post)
          = selectStep distance box (selectCities distance box pre) c ++ added := by
  unfold selectCities
  rw [List.foldl_append, List.foldl_cons]
  obtain ⟨added, hs, _, he⟩ := foldl_selectStep_append distance box post
    (selectStep distance box (List.foldl (selectStep distance box) [] pre) c)
  exact ⟨added, hs, he⟩

theorem not_mem_selectCities (distance : ℚ → ℚ → ℚ → ℚ → ℚ) (box : MinMaxLatLon)
    (l : List City) (c : City) (h : c ∉ l) : c ∉ selectCities distance box l :=
  fun hc => h ((selectCities_sublist distance box l).subset hc)

/-- A candidate inside the box that occurs once in the list is selected exactly when it
keeps its own threshold to the cities selected before it. -/
theorem mem_selectCities_iff (distance : ℚ → ℚ → ℚ → ℚ → ℚ) (box : MinMaxLatLon)
    (pre post : List City) (c : City)
    (hb : inBox box c) (hpre : c ∉ pre) (hpost : c ∉ post) :
    c ∈ selectCities distance box (pre ++ c :: post)
      ↔ ∀ t ∈ selectCities distance box pre,
          distance c.lon c.lat t.lon t.lat ≥ targetDist c := by
  obtain ⟨added, hs, he⟩ := selectCities_split distance box pre post c
  rw [he]
  have hadd : c ∉ added := fun hc => hpost (hs.subset hc)
  have hsel : c ∉ selectCities distance box pre := not_mem_selectCities distance box pre c hpre
  rcases selectStep_cases distance box (selectCities distance box pre) c with
    ⟨h, hno⟩ | ⟨h, _, ho⟩
  · rw [h]
    constructor
    · intro hc
      rcases List.mem_append.mp hc with h1 | h1
      · exact absurd h1 hsel
      · exact absurd h1 hadd
    · intro hall
      exact absurd ⟨hb, (okToAddCity_iff _ _ _).mpr hall⟩ hno
  · rw [h]
    constructor
    · intro _
      exact (okToAddCity_iff _ _ _).mp ho
    · intro _
      simp

/-- C16, the claim as stated fails when the threshold is read as "targetDistance, or 1
if absent": the candidate `cityZero` carries `targetDistance: 0`, lies inside the box
and is at distance 1/2 ≥ 0 from the only city accepted before it, yet it is not
selected, because `0 || 1` is 1. -/
theorem C16_counterexample :
    inBox plainsBox cityZero
      ∧ selectCities calcDistance plainsBox [cityPlain] = [cityPlain]
      ∧ (∀ t ∈ selectCities calcDistance plainsBox [cityPlain],
          calcDistance cityZero.lon cityZero.lat t.lon t.lat
            ≥ cityZero.targetDistance.getD 1)
      ∧ cityZero ∉ selectCities calcDistance plainsBox [cityPlain, cityZero] := by
  have hb1 : inBox plainsBox cityPlain := by norm_num [inBox, plainsBox, cityPlain]
  have hb2 : inBox plainsBox cityZero := by norm_num [inBox, plainsBox, cityZero]
  have d : calcDistance cityZero.lon cityZero.lat cityPlain.lon cityPlain.lat = 1 / 2 := by
    simp only [cityZero, cityPlain, calcDistance_same_lat]; norm_num
  have t : targetDist cityZero = 1 := by simp [targetDist, cityZero]
  have s1 : selectCities calcDistance plainsBox [cityPlain] = [cityPlain] := by
    show selectStep calcDistance plainsBox [] cityPlain = _
    rw [selectStep_accept calcDistance plainsBox [] cityPlain hb1 (by simp)]
    rfl
  have s2 : selectCities calcDistance plainsBox [cityPlain, cityZero] = [cityPlain] := by
    show selectStep calcDistance plainsBox
      (selectCities calcDistance plainsBox [cityPlain]) cityZero = _
    rw [s1]
    exact selectStep_reject calcDistance plainsBox _ cityZero cityPlain
      (List.mem_singleton.mpr rfl) (by rw [d, t]; norm_num)
  refine ⟨hb2, s1, ?_, ?_⟩
  · intro c hc
    rw [s1, List.mem_singleton] at hc
    subst hc
    rw [d]
    norm_num [cityZero]
  · rw [s2, List.mem_singleton]
    decide

/-- C16, amended: the threshold of a candidate is the value of `targetDistance || 1`,
that is its `targetDistance`, or 1 if that is absent or 0.  A candidate inside the box
(occurring once in the list) is selected if and only if its distance to every city
selected before it in input order is at least its own threshold; so a candidate with no
in-box candidate before it is selected, and a rejected one is closer than its own
threshold to a selected city that precedes it in the input. -/
theorem C16_greedy_acceptance (distance : ℚ → ℚ → ℚ → ℚ → ℚ) (box : MinMaxLatLon)
    (pre post : List City) (c : City)
    (hb : inBox box c) (hpre : c ∉ pre) (hpost : c ∉ post) :
    (c ∈ selectCities distance box (pre ++ c :: post)
        ↔ ∀ t ∈ selectCities distance box pre,
            distance c.lon c.lat t.lon t.lat ≥ targetDist c)
    ∧ ((∀ p ∈ pre, ¬ inBox box p) → c ∈ selectCities distance box (pre ++ c :: post))
    ∧ (c ∉ selectCities distance box (pre ++ c :: post) →
        ∃ t, t ∈ pre ∧ t ∈ selectCities distance box (pre ++ c :: post)
          ∧ distance c.lon c.lat t.lon t.lat < targetDist c)
    ∧ (c.targetDistance ≠ some 0 → targetDist c = c.targetDistance.getD 1)
    ∧ (c.targetDistance = some 0 → targetDist c = 1) := by
  have hiff := mem_selectCities_iff distance box pre post c hb hpre hpost
  refine ⟨hiff, ?_, ?_, ?_, ?_⟩
  · intro hout
    rw [hiff]
    intro t ht
    exact absurd (selectCities_inBox distance box pre t ht)
      (hout t ((selectCities_sublist distance box pre).subset ht))
  · intro hnot
    rw [hiff] at hnot
    push_neg at hnot
    obtain ⟨t, ht, hlt⟩ := hnot
    obtain ⟨added, _, _, he⟩ := selectCities_append distance box pre (c :: post)
    refine ⟨t, (selectCities_sublist distance box pre).subset ht, ?_, hlt⟩
    rw [he]
    exact List.mem_append_left _ ht
  · intro h0
    unfold targetDist
    cases hc : c.targetDistance with
    | none => rfl
    | some d =>
      have hd : d ≠ 0 := fun e => h0 (by rw [hc, e])
      simp [hd]
  · intro h0
    unfold targetDist
    rw [h0]
    simp

/-- C16, amended, at `cityNear` between `cityPlain` (two degrees away: selected) and
`cityClose`. -/
theorem C16_greedy_acceptance_witness :
    (inBox plainsBox cityNear ∧ cityNear ∉ [cityPlain] ∧ cityNear ∉ [cityClose])
    ∧ (cityNear ∈ selectCities calcDistance plainsBox ([cityPlain] ++ cityNear :: [cityClose])
        ↔ ∀ t ∈ selectCities calcDistance plainsBox [cityPlain],
            calcDistance cityNear.lon cityNear.lat t.lon t.lat ≥ targetDist cityNear) :=
  have hb : inBox plainsBox cityNear := by norm_num [inBox, plainsBox, cityNear]
  have h1 : cityNear ∉ [cityPlain] := by decide
  have h2 : cityNear ∉ [cityClose] := by decide
  ⟨⟨hb, h1, h2⟩,
   (C16_greedy_acceptance calcDistance plainsBox [cityPlain] [cityClose] cityNear hb h1 h2).1⟩

/-! ### The viewer's box stays on the map -/

theorem box_default (lat lon : ℚ) (state : String)
    (hAK : state ≠ "AK") (hHI : state ≠ "HI") :
    ∃ p b, getXYFromLatitudeLongitude lat lon 240 117 state = Except.ok p
      ∧ getMinMaxLatitudeLongitude p.x p.y 240 117 state = Except.ok b
      ∧ b.hasViewportSize defaultConstants 240 117 ∧ b.insideImage defaultConstants := by
  obtain ⟨p, hp, hx0, hx1, hy0, hy1⟩ := getXYFromLatitudeLongitude_within lat lon state hAK hHI
  refine ⟨p, _, hp, getMinMaxLatitudeLongitude_default p.x p.y 240 117 state hAK hHI, ?_, ?_⟩
  · simp only [MinMaxLatLon.hasViewportSize, defaultConstants]
    constructor <;> norm_num <;> ring
  · simp only [MinMaxLatLon.insideImage, defaultConstants]
    norm_num at hx1 hy1 ⊢
    refine ⟨?_, ?_, ?_, ?_, ?_, ?_⟩ <;> linarith

theorem box_AK (lat lon : ℚ) :
    (getMinMaxLatitudeLongitudeAK (getXYFromLatitudeLongitudeAK lat lon 240 117).x
        (getXYFromLatitudeLongitudeAK lat lon 240 117).y 240 117).hasViewportSize
          alaskaConstants 240 117
    ∧ (getMinMaxLatitudeLongitudeAK (getXYFromLatitudeLongitudeAK lat lon 240 117).x
        (getXYFromLatitudeLongitudeAK lat lon 240 117).y 240 117).insideImage
          alaskaConstants := by
  obtain ⟨hx0, hx1, hy0, hy1⟩ := getXYFromLatitudeLongitudeAK_within lat lon
  generalize getXYFromLatitudeLongitudeAK lat lon 240 117 = p at hx0 hx1 hy0 hy1 ⊢
  constructor
  · simp only [MinMaxLatLon.hasViewportSize, alaskaConstants, getMinMaxLatitudeLongitudeAK]
    constructor <;> norm_num <;> ring
  · simp only [MinMaxLatLon.insideImage, alaskaConstants, getMinMaxLatitudeLongitudeAK]
    norm_num at hx1 hy1 ⊢
    refine ⟨?_, ?_, ?_, ?_, ?_, ?_⟩ <;> linarith

theorem box_HI (lat lon : ℚ) :
    (getMinMaxLatitudeLongitudeHI (getXYFromLatitudeLongitudeHI lat lon 240 117).x
        (getXYFromLatitudeLongitudeHI lat lon 240 117).y 240 117).hasViewportSize
          hawaiiConstants 240 117
    ∧ (getMinMaxLatitudeLongitudeHI (getXYFromLatitudeLongitudeHI lat lon 240 117).x
        (getXYFromLatitudeLongitudeHI lat lon 240 117).y 240 117).insideImage
          hawaiiConstants := by
  obtain ⟨hx0, hx1, hy0, hy1⟩ := getXYFromLatitudeLongitudeHI_within lat lon
  generalize getXYFromLatitudeLongitudeHI lat lon 240 117 = p at hx0 hx1 hy0 hy1 ⊢
  constructor
  · simp only [MinMaxLatLon.hasViewportSize, hawaiiConstants, getMinMaxLatitudeLongitudeHI]
    constructor <;> norm_num <;> ring
  · simp only [MinMaxLatLon.insideImage, hawaiiConstants, getMinMaxLatitudeLongitudeHI]
    norm_num at hx1 hy1 ⊢
    refine ⟨?_, ?_, ?_, ?_, ?_, ?_⟩ <;> linarith

/-- C18 (the viewer's box stays on the map, offset 240 x 117).  The box computed from
the projected, possibly clamped, pixel has the constant size of the viewport and lies
inside the geographic extent of the region's image: this holds for the continental map
through the two instance methods, and for the Alaska and Hawaii bodies.  Through the
instance methods the states `'AK'` and `'HI'` give no box: the projection raises a
`TypeError` (and so does the inverse). -/
theorem C18_box_inside_image :
    (∀ lat lon : ℚ, getXYFromLatitudeLongitude lat lon 240 117 "AK"
        = Except.error (JsError.notAFunction "getXYFromLatitudeLongitudeAK"))
    ∧ (∀ lat lon : ℚ, getXYFromLatitudeLongitude lat lon 240 117 "HI"
        = Except.error (JsError.notAFunction "getXYFromLatitudeLongitudeHI"))
    ∧ (∀ X Y : ℚ, getMinMaxLatitudeLongitude X Y 240 117 "AK"
        = Except.error (JsError.notAFunction "getMinMaxLatitudeLongitudeAK"))
    ∧ (∀ X Y : ℚ, getMinMaxLatitudeLongitude X Y 240 117 "HI"
        = Except.error (JsError.notAFunction "getMinMaxLatitudeLongitudeHI"))
    ∧ (∀ (lat lon : ℚ) (state : String), state ≠ "AK" → state ≠ "HI" →
        ∃ p b, getXYFromLatitudeLongitude lat lon 240 117 state = Except.ok p
          ∧ getMinMaxLatitudeLongitude p.x p.y 240 117 state = Except.ok b
          ∧ b.hasViewportSize defaultConstants 240 117 ∧ b.insideImage defaultConstants)
    ∧ (∀ lat lon : ℚ,
        (getMinMaxLatitudeLongitudeAK (getXYFromLatitudeLongitudeAK lat lon 240 117).x
            (getXYFromLatitudeLongitudeAK lat lon 240 117).y 240 117).hasViewportSize
              alaskaConstants 240 117
        ∧ (getMinMaxLatitudeLongitudeAK (getXYFromLatitudeLongitudeAK lat lon 240 117).x
            (getXYFromLatitudeLongitudeAK lat lon 240 117).y 240 117).insideImage
              alaskaConstants)
    ∧ (∀ lat lon : ℚ,
        (getMinMaxLatitudeLongitudeHI (getXYFromLatitudeLongitudeHI lat lon 240 117).x
            (getXYFromLatitudeLongitudeHI lat lon 240 117).y 240 117).hasViewportSize
              hawaiiConstants 240 117
        ∧ (getMinMaxLatitudeLongitudeHI (getXYFromLatitudeLongitudeHI lat lon 240 117).x
            (getXYFromLatitudeLongitudeHI lat lon 240 117).y 240 117).insideImage
              hawaiiConstants) :=
  ⟨fun lat lon => getXYFromLatitudeLongitude_AK lat lon 240 117,
   fun lat lon => getXYFromLatitudeLongitude_HI lat lon 240 117,
   fun X Y => getMinMaxLatitudeLongitude_AK X Y 240 117,
   fun X Y => getMinMaxLatitudeLongitude_HI X Y 240 117,
   box_default, box_AK, box_HI⟩

/-! ### The per-city task -/

theorem regionalForecastTask_eq_some (ext : External) (maxLat minLon : ℚ) (state : String)
    (city : City) (records : List ForecastRecord) :
    regionalForecastTask ext maxLat minLon state city = some records
      ↔ regionalForecastAttempt ext maxLat minLon state city = Except.ok records := by
  unfold regionalForecastTask
  cases h : regionalForecastAttempt ext maxLat minLon state city with
  | ok r => simp
  | error e => simp

/-- What a successful run of the `try` block has met, and what it returns. -/
theorem regionalForecastAttempt_ok (ext : External) (maxLat minLon : ℚ) (state : String)
    (city : City) (records : List ForecastRecord) :
    regionalForecastAttempt ext maxLat minLon state city = Except.ok records
      ↔ ∃ point observation icon periods p1 p2 cityXY,
          ext.getPoint city.lat city.lon = Except.ok point
          ∧ getRegionalObservation ext point = some observation
          ∧ observation.icon = some icon
          ∧ ext.fetchForecast point.forecast = Except.ok periods
          ∧ periods[1]? = some p1 ∧ periods[2]? = some p2
          ∧ getXYForCity city maxLat minLon state = Except.ok cityXY
          ∧ records =
              [ { daytime := matchesDay icon
                  temperature := ext.celsiusToFahrenheit observation.temperature
                  name := formatCity city.city.toList
                  icon := icon
                  x := cityXY.x
                  y := cityXY.y
                  time := none },
                buildForecast p1 city cityXY,
                buildForecast p2 city cityXY ] := by
  constructor
  · intro h
    unfold regionalForecastAttempt at h
    cases hp : ext.getPoint city.lat city.lon with
    | error e => simp [hp, bind, Except.bind] at h
    | ok point =>
      simp only [hp, bind, Except.bind] at h
      cases hf : ext.fetchForecast point.forecast with
      | error e => simp [hf] at h
      | ok periods =>
        simp only [hf] at h
        cases hxy : getXYForCity city maxLat minLon state with
        | error e => simp [hxy] at h
        | ok cityXY =>
          simp only [hxy] at h
          cases ho : getRegionalObservation ext point with
          | none => simp [ho, throw, throwThe, MonadExceptOf.throw] at h
          | some observation =>
            simp only [ho, pure, Except.pure] at h
            cases hi : observation.icon with
            | none => simp [hi, throw, throwThe, MonadExceptOf.throw] at h
            | some icon =>
              simp only [hi] at h
              cases h1 : periods[1]? with
              | none => simp [h1, throw, throwThe, MonadExceptOf.throw] at h
              | some p1 =>
                simp only [h1] at h
                cases h2 : periods[2]? with
                | none => simp [h2, throw, throwThe, MonadExceptOf.throw] at h
                | some p2 =>
                  simp only [h2, Except.ok.injEq] at h
                  exact ⟨point, observation, icon, periods, p1, p2, cityXY,
                    rfl, ho, hi, hf, h1, h2, rfl, h.symm⟩
  · rintro ⟨point, observation, icon, periods, p1, p2, cityXY,
      hp, ho, hi, hf, h1, h2, hxy, rfl⟩
    unfold regionalForecastAttempt
    simp only [hp, bind, Except.bind, hf, hxy, ho, pure, Except.pure, hi, h1, h2]

theorem regionalForecastTask_extOk :
    regionalForecastTask extOk 42 (-110) "TX" cityPlain = some exampleRecords := by
  rw [regionalForecastTask_eq_some, regionalForecastAttempt_ok]
  refine ⟨examplePoint, { icon := some "https://api/icons/land/day/skc", temperature := some 20 },
    "https://api/icons/land/day/skc", examplePeriods,
    { isDaytime := false, temperature := some 55, icon := "https://api/icons/land/night/sct",
      startTime := "2024-05-01T18:00:00-05:00" },
    { isDaytime := true, temperature := none, icon := "https://api/icons/land/day/rain",
      startTime := "2024-05-02T06:00:00-05:00" },
    getXYForCityBody cityPlain 42 (-110), rfl, rfl, rfl, rfl, rfl, rfl,
    getXYForCity_default cityPlain 42 (-110) "TX" (by decide) (by decide), ?_⟩
  have hm : matchesDay "https://api/icons/land/day/skc" = true := by decide
  have hn : formatCity cityPlain.city.toList = "Plain".toList := by decide
  have hx : (getXYForCityBody cityPlain 42 (-110)).x = 570 := by
    norm_num [getXYForCityBody, cityPlain]
  have hy : (getXYForCityBody cityPlain 42 (-110)).y = 140 := by
    norm_num [getXYForCityBody, cityPlain]
  have ht : extOk.celsiusToFahrenheit (some 20) = 68 := by
    norm_num [extOk]
  simp only [exampleRecords, buildForecast, hm, hn, hx, hy, ht]

theorem getElem?_succ_of_tail_eq {α : Type} (l l2 : List α) (h : l.tail = l2.tail) (n : ℕ) :
    l[n + 1]? = l2[n + 1]? := by
  cases l with
  | nil =>
    cases l2 with
    | nil => rfl
    | cons b t2 =>
      simp only [List.tail_nil, List.tail_cons] at h
      subst h
      simp
  | cons a t =>
    cases l2 with
    | nil =>
      simp only [List.tail_nil, List.tail_cons] at h
      subst h
      simp
    | cons b t2 =>
      simp only [List.tail_cons] at h
      subst h
      simp

/-- The task does not read `periods[0]`: two forecast answers that agree from index 1 on
give the same result. -/
theorem regionalForecastTask_ignores_first_period (ext : External)
    (fetchForecast2 : String → Except JsError (List Period))
    (hsame : ∀ url, (fetchForecast2 url).map List.tail = (ext.fetchForecast url).map List.tail)
    (maxLat minLon : ℚ) (state : String) (city : City) (records : List ForecastRecord)
    (h : regionalForecastTask ext maxLat minLon state city = some records) :
    regionalForecastTask { ext with fetchForecast := fetchForecast2 } maxLat minLon state city
      = some records := by
  rw [regionalForecastTask_eq_some, regionalForecastAttempt_ok] at h ⊢
  obtain ⟨point, observation, icon, periods, p1, p2, cityXY,
    hp, ho, hi, hf, h1, h2, hxy, hr⟩ := h
  have hs := hsame point.forecast
  rw [hf] at hs
  cases hf2 : fetchForecast2 point.forecast with
  | error e => rw [hf2] at hs; simp [Except.map] at hs
  | ok periods2 =>
    rw [hf2] at hs
    simp only [Except.map, Except.ok.injEq] at hs
    refine ⟨point, observation, icon, periods2, p1, p2, cityXY, hp, ?_, hi, hf2, ?_, ?_, hxy, hr⟩
    · simpa [getRegionalObservation] using ho
    · rw [getElem?_succ_of_tail_eq periods2 periods hs 0]; exact h1
    · rw [getElem?_succ_of_tail_eq periods2 periods hs 1]; exact h2

/-- C14 (per-city atomicity).  The task of a city yields `false` (here `none`) or exactly
three records; it yields `false` when `getRegionalObservation` returns `false`, whatever
the forecast fetch answers, and when the forecast fetch raises, whatever the observation
is.  Both situations occur: with `extNoObservation` the point and the forecast answer and
the observation fails, with `extNoForecast` the point and the observation answer and
the forecast fails. -/
theorem C14_per_city_atomicity :
    (∀ (ext : External) (maxLat minLon : ℚ) (state : String) (city : City),
        (regionalForecastTask ext maxLat minLon state city = none
          ∨ ∃ r0 r1 r2, regionalForecastTask ext maxLat minLon state city = some [r0, r1, r2])
        ∧ (∀ point, ext.getPoint city.lat city.lon = Except.ok point →
            getRegionalObservation ext point = none →
            regionalForecastTask ext maxLat minLon state city = none)
        ∧ (∀ point e, ext.getPoint city.lat city.lon = Except.ok point →
            ext.fetchForecast point.forecast = Except.error e →
            regionalForecastTask ext maxLat minLon state city = none))
    ∧ (extNoObservation.getPoint cityPlain.lat cityPlain.lon = Except.ok examplePoint
        ∧ extNoObservation.fetchForecast examplePoint.forecast = Except.ok examplePeriods
        ∧ getRegionalObservation extNoObservation examplePoint = none
        ∧ regionalForecastTask extNoObservation 42 (-110) "TX" cityPlain = none)
    ∧ (extNoForecast.getPoint cityPlain.lat cityPlain.lon = Except.ok examplePoint
        ∧ getRegionalObservation extNoForecast examplePoint
            = some { icon := some "https://api/icons/land/day/skc", temperature := some 20 }
        ∧ extNoForecast.fetchForecast examplePoint.forecast
            = Except.error (JsError.rejected "https://api/forecast")
        ∧ regionalForecastTask extNoForecast 42 (-110) "TX" cityPlain = none) := by
  have general : ∀ (ext : External) (maxLat minLon : ℚ) (state : String) (city : City),
      (regionalForecastTask ext maxLat minLon state city = none
        ∨ ∃ r0 r1 r2, regionalForecastTask ext maxLat minLon state city = some [r0, r1, r2])
      ∧ (∀ point, ext.getPoint city.lat city.lon = Except.ok point →
          getRegionalObservation ext point = none →
          regionalForecastTask ext maxLat minLon state city = none)
      ∧ (∀ point e, ext.getPoint city.lat city.lon = Except.ok point →
          ext.fetchForecast point.forecast = Except.error e →
          regionalForecastTask ext maxLat minLon state city = none) := by
    intro ext maxLat minLon state city
    refine ⟨?_, ?_, ?_⟩
    · cases h : regionalForecastTask ext maxLat minLon state city with
      | none => exact Or.inl rfl
      | some records =>
        right
        rw [regionalForecastTask_eq_some, regionalForecastAttempt_ok] at h
        obtain ⟨_, _, _, _, _, _, _, _, _, _, _, _, _, _, hr⟩ := h
        exact ⟨_, _, _, by rw [hr]⟩
    · intro point hp ho
      cases h : regionalForecastTask ext maxLat minLon state city with
      | none => rfl
      | some records =>
        rw [regionalForecastTask_eq_some, regionalForecastAttempt_ok] at h
        obtain ⟨point2, obs, _, _, _, _, _, hp2, ho2, _⟩ := h
        rw [hp] at hp2
        cases hp2
        rw [ho] at ho2
        cases ho2
    · intro point e hp hf
      cases h : regionalForecastTask ext maxLat minLon state city with
      | none => rfl
      | some records =>
        rw [regionalForecastTask_eq_some, regionalForecastAttempt_ok] at h
        obtain ⟨point2, _, _, _, _, _, _, hp2, _, _, hf2, _⟩ := h
        rw [hp] at hp2
        cases hp2
        rw [hf] at hf2
        cases hf2
  refine ⟨general, ⟨rfl, rfl, rfl, ?_⟩, ⟨rfl, rfl, rfl, ?_⟩⟩
  · exact (general extNoObservation 42 (-110) "TX" cityPlain).2.1 examplePoint rfl rfl
  · exact (general extNoForecast 42 (-110) "TX" cityPlain).2.2 examplePoint _ rfl rfl

/-- C17 (the record triple of a city).  When the task of a city succeeds, its result is
`[observation record, buildForecast(periods[1]), buildForecast(periods[2])]`: the three
records carry the name `formatCity(city.city)` and the pixel position that
`getXYForCity(city, maxLat, minLon, state)` returned; the observation record has no
`time`, the two forecast records carry the `startTime` of their period; and `periods[0]`
is not read (a forecast answer that differs at index 0 only gives the same result). -/
theorem C17_record_triple (ext : External) (maxLat minLon : ℚ) (state : String)
    (city : City) (records : List ForecastRecord)
    (h : regionalForecastTask ext maxLat minLon state city = some records) :
    (∃ point observation icon periods p1 p2 cityXY observationRecord,
        ext.getPoint city.lat city.lon = Except.ok point
        ∧ getRegionalObservation ext point = some observation
        ∧ observation.icon = some icon
        ∧ ext.fetchForecast point.forecast = Except.ok periods
        ∧ periods[1]? = some p1 ∧ periods[2]? = some p2
        ∧ getXYForCity city maxLat minLon state = Except.ok cityXY
        ∧ records = [observationRecord, buildForecast p1 city cityXY,
            buildForecast p2 city cityXY]
        ∧ observationRecord.icon = icon
        ∧ observationRecord.daytime = matchesDay icon
        ∧ observationRecord.temperature = ext.celsiusToFahrenheit observation.temperature
        ∧ observationRecord.time = none
        ∧ (buildForecast p1 city cityXY).time = some p1.startTime
        ∧ (buildForecast p2 city cityXY).time = some p2.startTime
        ∧ ∀ r ∈ records,
            r.name = formatCity city.city.toList ∧ r.x = cityXY.x ∧ r.y = cityXY.y)
    ∧ (∀ fetchForecast2 : String → Except JsError (List Period),
        (∀ url, (fetchForecast2 url).map List.tail = (ext.fetchForecast url).map List.tail) →
        regionalForecastTask { ext with fetchForecast := fetchForecast2 } maxLat minLon
          state city = some records) := by
  refine ⟨?_, fun ff2 hsame =>
    regionalForecastTask_ignores_first_period ext ff2 hsame maxLat minLon state city records h⟩
  rw [regionalForecastTask_eq_some, regionalForecastAttempt_ok] at h
  obtain ⟨point, observation, icon, periods, p1, p2, cityXY,
    hp, ho, hi, hf, h1, h2, hxy, hr⟩ := h
  refine ⟨point, observation, icon, periods, p1, p2, cityXY, _, hp, ho, hi, hf, h1, h2, hxy,
    hr, rfl, rfl, rfl, rfl, rfl, rfl, ?_⟩
  intro r hr2
  rw [hr] at hr2
  simp only [List.mem_cons, List.mem_singleton, List.not_mem_nil, or_false] at hr2
  rcases hr2 with rfl | rfl | rfl <;> exact ⟨rfl, rfl, rfl⟩

/-- C17 at `cityPlain` with collaborators that all answer: the task succeeds. -/
theorem C17_record_triple_witness :
    regionalForecastTask extOk 42 (-110) "TX" cityPlain = some exampleRecords
    ∧ ∃ point observation icon periods p1 p2 cityXY observationRecord,
        extOk.getPoint cityPlain.lat cityPlain.lon = Except.ok point
        ∧ getRegionalObservation extOk point = some observation
        ∧ observation.icon = some icon
        ∧ extOk.fetchForecast point.forecast = Except.ok periods
        ∧ periods[1]? = some p1 ∧ periods[2]? = some p2
        ∧ getXYForCity cityPlain 42 (-110) "TX" = Except.ok cityXY
        ∧ exampleRecords = [observationRecord, buildForecast p1 cityPlain cityXY,
            buildForecast p2 cityPlain cityXY]
        ∧ observationRecord.icon = icon
        ∧ observationRecord.daytime = matchesDay icon
        ∧ observationRecord.temperature = extOk.celsiusToFahrenheit observation.temperature
        ∧ observationRecord.time = none
        ∧ (buildForecast p1 cityPlain cityXY).time = some p1.startTime
        ∧ (buildForecast p2 cityPlain cityXY).time = some p2.startTime
        ∧ ∀ r ∈ exampleRecords,
            r.name = formatCity cityPlain.city.toList ∧ r.x = cityXY.x ∧ r.y = cityXY.y :=
  ⟨regionalForecastTask_extOk,
   (C17_record_triple extOk 42 (-110) "TX" cityPlain exampleRecords
      regionalForecastTask_extOk).1⟩

/-! ### The end of `getData` -/

theorem finishGetData_noData (regionalDataAll : List (Option (List ForecastRecord)))
    (offsetXY sourceXY : XY) (display : Display)
    (h : regionalDataAll.filterMap (fun data => data) = []) :
    finishGetData regionalDataAll offsetXY sourceXY display
      = { display with status := STATUS.noData } := by
  simp [finishGetData, h]

theorem finishGetData_loaded (regionalDataAll : List (Option (List ForecastRecord)))
    (offsetXY sourceXY : XY) (display : Display)
    (h : regionalDataAll.filterMap (fun data => data) ≠ []) :
    finishGetData regionalDataAll offsetXY sourceXY display
      = { status := STATUS.loaded
          data := some { regionalData := regionalDataAll.filterMap (fun data => data)
                         offsetXY := offsetXY, sourceXY := sourceXY } } := by
  have hl : ¬ (regionalDataAll.filterMap (fun data => data)).length = 0 := by
    rw [List.length_eq_zero]; exact h
  simp only [finishGetData, if_neg hl]

theorem filterMap_map_task (task : City → Option (List ForecastRecord))
    (regionalCities : List City) :
    (regionalCities.map task).filterMap (fun data => data) = regionalCities.filterMap task := by
  rw [List.filterMap_map]
  rfl

theorem filterMap_eq_nil_iff_all_none (task : City → Option (List ForecastRecord))
    (regionalCities : List City) :
    regionalCities.filterMap task = [] ↔ ∀ c ∈ regionalCities, task c = none := by
  induction regionalCities with
  | nil => simp
  | cons c cs ih =>
    cases hc : task c with
    | none => simp [List.filterMap_cons, hc, ih]
    | some t => simp [List.filterMap_cons, hc]

theorem successes_sublist (task : City → Option (List ForecastRecord))
    (regionalCities : List City) :
    List.Sublist ((regionalCities.filterMap task).map some) (regionalCities.map task) := by
  induction regionalCities with
  | nil => simp
  | cons c cs ih =>
    cases hc : task c with
    | none =>
      simp only [List.filterMap_cons, hc, List.map_cons]
      exact ih.cons none
    | some t =>
      simp only [List.filterMap_cons, hc, List.map_cons]
      exact ih.cons₂ (some t)

/-- C13 (partial failure).  With each selected city's task giving a triple or a failure,
`regionalData` is the list of the triples of the cities that succeeded, in the order of
the selected cities (a failure removes nothing else); the status becomes `noData`, with
`this.data` not assigned, exactly when no city succeeded, and `loaded` otherwise.  With
three cities of which the second fails the result holds the two other triples; with
three failures the status is `noData`. -/
theorem C13_partial_failure :
    (∀ (task : City → Option (List ForecastRecord)) (regionalCities : List City)
        (offsetXY sourceXY : XY) (display : Display),
        ((∀ c ∈ regionalCities, task c = none) →
          (finishGetData (regionalCities.map task) offsetXY sourceXY display).status
              = STATUS.noData
          ∧ (finishGetData (regionalCities.map task) offsetXY sourceXY display).data
              = display.data)
        ∧ ((∃ c ∈ regionalCities, task c ≠ none) →
          finishGetData (regionalCities.map task) offsetXY sourceXY display
            = { status := STATUS.loaded
                data := some { regionalData := regionalCities.filterMap task
                               offsetXY := offsetXY, sourceXY := sourceXY } })
        ∧ ((finishGetData (regionalCities.map task) offsetXY sourceXY display).status
              = STATUS.noData ↔ ∀ c ∈ regionalCities, task c = none)
        ∧ (∀ records, records ∈ regionalCities.filterMap task
              ↔ ∃ c ∈ regionalCities, task c = some records)
        ∧ List.Sublist ((regionalCities.filterMap task).map some) (regionalCities.map task))
    ∧ (∀ (t1 t3 : List ForecastRecord) (offsetXY sourceXY : XY) (display : Display),
        finishGetData [some t1, none, some t3] offsetXY sourceXY display
          = { status := STATUS.loaded
              data := some { regionalData := [t1, t3]
                             offsetXY := offsetXY, sourceXY := sourceXY } })
    ∧ (∀ (offsetXY sourceXY : XY) (display : Display),
        finishGetData [none, none, none] offsetXY sourceXY display
          = { status := STATUS.noData, data := display.data }) := by
  refine ⟨?_, ?_, ?_⟩
  · intro task regionalCities offsetXY sourceXY display
    have hnone : (∀ c ∈ regionalCities, task c = none) →
        finishGetData (regionalCities.map task) offsetXY sourceXY display
          = { display with status := STATUS.noData } := by
      intro hall
      apply finishGetData_noData
      rw [filterMap_map_task]
      exact (filterMap_eq_nil_iff_all_none task regionalCities).mpr hall
    have hsome : ¬ (∀ c ∈ regionalCities, task c = none) →
        finishGetData (regionalCities.map task) offsetXY sourceXY display
          = { status := STATUS.loaded
              data := some { regionalData := regionalCities.filterMap task
                             offsetXY := offsetXY, sourceXY := sourceXY } } := by
      intro hnot
      have hne : (regionalCities.map task).filterMap (fun data => data) ≠ [] := by
        rw [filterMap_map_task]
        exact fun e => hnot ((filterMap_eq_nil_iff_all_none task regionalCities).mp e)
      rw [finishGetData_loaded _ _ _ _ hne, filterMap_map_task]
    refine ⟨?_, ?_, ?_, ?_, ?_⟩
    · intro hall
      rw [hnone hall]
      exact ⟨rfl, rfl⟩
    · rintro ⟨c, hc, hne⟩
      exact hsome (fun hall => hne (hall c hc))
    · constructor
      · intro hst
        by_contra hnot
        rw [hsome hnot] at hst
        cases hst
      · intro hall
        rw [hnone hall]
    · intro records
      simp [List.mem_filterMap]
    · exact successes_sublist task regionalCities
  · intro t1 t3 offsetXY sourceXY display
    rw [finishGetData_loaded _ _ _ _ (by simp)]
    simp
  · intro offsetXY sourceXY display
    rw [finishGetData_noData _ _ _ _ (by simp)]

theorem getData_AK (ext : External) (distance : ℚ → ℚ → ℚ → ℚ → ℚ)
    (RegionalCities StationInfo : List City) (latitude longitude : ℚ) (display : Display) :
    getData ext distance RegionalCities StationInfo
        { latitude := latitude, longitude := longitude, state := "AK" } display
      = Except.error (JsError.notAFunction "getXYFromLatitudeLongitudeAK") := by
  simp only [getData, getXYFromLatitudeLongitude_AK]
  rfl

theorem getData_default (ext : External) (distance : ℚ → ℚ → ℚ → ℚ → ℚ)
    (RegionalCities StationInfo : List City) (weatherParameters : WeatherParameters)
    (display : Display)
    (hAK : weatherParameters.state ≠ "AK") (hHI : weatherParameters.state ≠ "HI") :
    ∃ sourceXY minMaxLatLon,
      getXYFromLatitudeLongitude weatherParameters.latitude weatherParameters.longitude
          240 117 weatherParameters.state = Except.ok sourceXY
      ∧ getMinMaxLatitudeLongitude sourceXY.x sourceXY.y 240 117 weatherParameters.state
          = Except.ok minMaxLatLon
      ∧ getData ext distance RegionalCities StationInfo weatherParameters display
          = Except.ok (finishGetData
              ((selectCities distance minMaxLatLon
                  (combinedCities RegionalCities StationInfo 2.5)).map
                (regionalForecastTask ext minMaxLatLon.maxLat minMaxLatLon.minLon
                  weatherParameters.state))
              { x := 240, y := 117 } sourceXY display) := by
  have h1 := getXYFromLatitudeLongitude_body weatherParameters.latitude
    weatherParameters.longitude 240 117 weatherParameters.state hAK hHI
  refine ⟨_, _, h1, getMinMaxLatitudeLongitude_default _ _ 240 117 _ hAK hHI, ?_⟩
  simp only [getData, h1, getMinMaxLatitudeLongitude_default _ _ 240 117 _ hAK hHI,
    targetDistance, if_neg hHI]
  rfl

/-! ### Label placement -/

/-- C15 (label placement).  For the record `(x, y)` of a city, with `mapYOff = 90`: the
icon, drawn when the icon resolver gives one, goes to `(x, y - 15 + 90)`; the name goes
to `(x - 40, y - 15 + 90)`; the temperature goes to `(x - 15 * n, y + 20 + 90)` with `n`
the number of characters of the string form of the displayed temperature.  For triples
and a screen index below 3, every city's record is drawn so. -/
theorem C15_label_placement :
    (∀ (ext : DrawExternal) (period : ForecastRecord),
        drawCity ext period
          = (match ext.getWeatherRegionalIconFromIconLink period.icon (!period.daytime) with
              | some src => [DrawCommand.gif src 42 period.x (period.y - 15 + 90)]
              | none => [])
            ++ [ DrawCommand.text "Star4000" "20px" "#ffffff" (period.x - 40)
                   (period.y - 15 + 90) (String.mk period.name) 2,
                 DrawCommand.text "Star4000 Large Compressed" "28px" "#ffff00"
                   (period.x
                     - 15 * ((ext.numberToString (displayedTemperature ext period)).length : ℚ))
                   (period.y + 20 + 90)
                   (ext.numberToString (displayedTemperature ext period)) 2 ])
    ∧ (∀ (ext : DrawExternal) (period : ForecastRecord) (src : String) (w gx gy : ℚ),
        DrawCommand.gif src w gx gy ∈ drawCity ext period →
          gx = period.x ∧ gy = period.y + 75)
    ∧ (∀ (ext : DrawExternal) (period : ForecastRecord) (font size color text : String)
        (tx ty s : ℚ),
        DrawCommand.text font size color tx ty text s ∈ drawCity ext period →
          (tx = period.x - 40 ∧ ty = period.y + 75)
          ∨ (tx = period.x
                - 15 * ((ext.numberToString (displayedTemperature ext period)).length : ℚ)
              ∧ ty = period.y + 110))
    ∧ (∀ (ext : DrawExternal) (data : List (List ForecastRecord)) (screenIndex : ℕ),
        (∀ city ∈ data, city.length = 3) → screenIndex < 3 →
        ∃ periods : List ForecastRecord,
          periods.length = data.length
          ∧ (∀ i (hi : i < data.length) (hp : i < periods.length),
              (data.get ⟨i, hi⟩)[screenIndex]? = some (periods.get ⟨i, hp⟩))
          ∧ drawLabels ext data screenIndex = Except.ok (periods.map (drawCity ext))) := by
  have hform : ∀ (ext : DrawExternal) (period : ForecastRecord),
      drawCity ext period
        = (match ext.getWeatherRegionalIconFromIconLink period.icon (!period.daytime) with
            | some src => [DrawCommand.gif src 42 period.x (period.y - 15 + 90)]
            | none => [])
          ++ [ DrawCommand.text "Star4000" "20px" "#ffffff" (period.x - 40)
                 (period.y - 15 + 90) (String.mk period.name) 2,
               DrawCommand.text "Star4000 Large Compressed" "28px" "#ffff00"
                 (period.x
                   - 15 * ((ext.numberToString (displayedTemperature ext period)).length : ℚ))
                 (period.y + 20 + 90)
                 (ext.numberToString (displayedTemperature ext period)) 2 ] := by
    intro ext period
    simp only [drawCity, mul_comm]
  refine ⟨hform, ?_, ?_, ?_⟩
  · intro ext period src w gx gy hmem
    rw [hform] at hmem
    cases hicon : ext.getWeatherRegionalIconFromIconLink period.icon (!period.daytime) with
    | none => simp [hicon] at hmem
    | some s =>
      simp [hicon] at hmem
      obtain ⟨_, _, hx, hy⟩ := hmem
      exact ⟨hx, by rw [hy]; ring⟩
  · intro ext period font size color text tx ty s hmem
    rw [hform] at hmem
    cases hicon : ext.getWeatherRegionalIconFromIconLink period.icon (!period.daytime) with
    | none =>
      simp [hicon] at hmem
      rcases hmem with ⟨_, _, _, hx, hy, _⟩ | ⟨_, _, _, hx, hy, _⟩
      · exact Or.inl ⟨hx, by rw [hy]; ring⟩
      · exact Or.inr ⟨hx, by rw [hy]; ring⟩
    | some src =>
      simp [hicon] at hmem
      rcases hmem with ⟨_, _, _, hx, hy, _⟩ | ⟨_, _, _, hx, hy, _⟩
      · exact Or.inl ⟨hx, by rw [hy]; ring⟩
      · exact Or.inr ⟨hx, by rw [hy]; ring⟩
  · intro ext data screenIndex hlen hidx
    induction data with
    | nil => exact ⟨[], rfl, by intro i hi; simp at hi, rfl⟩
    | cons city rest ih =>
      obtain ⟨periods, hpl, hget, hdraw⟩ :=
        ih (fun c hc => hlen c (List.mem_cons_of_mem _ hc))
      have hc3 : city.length = 3 := hlen city (List.mem_cons_self _ _)
      have hlt : screenIndex < city.length := by rw [hc3]; exact hidx
      refine ⟨city.get ⟨screenIndex, hlt⟩ :: periods, by simp [hpl], ?_, ?_⟩
      · intro i hi hp
        cases i with
        | zero => simp [List.getElem?_eq_getElem hlt]
        | succ j =>
          simp only [List.length_cons, Nat.add_lt_add_iff_right] at hi hp
          simpa using hget j hi hp
      · simp only [drawLabels, List.mapM_cons, List.getElem?_eq_getElem hlt] at hdraw ⊢
        simp only [bind, Except.bind, hdraw, pure, Except.pure, List.map_cons, List.get_eq_getElem]

end RegionalForecast
